import Mathlib

/-!
# Lily: multi-lidar extrinsic calibration node (`src/lily/src/lily.cpp`)

A shallow embedding of the transform conversions and of the per-topic session
state of `class Lily`, followed by theorems about them.

* `double` is modelled by `ℝ` (exact arithmetic), so the definitions that use
  square roots, divisions or comparisons of reals are marked `noncomputable`.
* `float` is modelled by the reals that binary32 represents: a conversion to
  `float` and every `float` operation round to nearest, ties to even
  (`toFloat`). Only the manual branch of `save_config` computes in `float`.
* `Eigen::Matrix3d` / `Eigen::Matrix4d` are `Matrix (Fin 3) (Fin 3) ℝ` and
  `Matrix (Fin 4) (Fin 4) ℝ`; `std::vector<double>` values of fixed length are
  functions on `Fin n`.
* `std::unordered_map<std::string, V>` is an association list with
  `find` / `assign` (the iteration order is irrelevant to everything below).
* The Eigen operations called by `lily.cpp` (`Quaterniond(Matrix3d)`,
  `normalize`, `toRotationMatrix`, `AngleAxisd`, `eulerAngles`,
  `Translation3d * rotation`) are transcribed first, from the library's
  implementation.
-/

namespace LilyNode

abbrev Matrix3d := Matrix (Fin 3) (Fin 3) ℝ
abbrev Matrix4d := Matrix (Fin 4) (Fin 4) ℝ
abbrev Vector3d := Fin 3 → ℝ

/-! ## Eigen operations used by `lily.cpp` -/

/-- The C function `atan2(y, x)` over the reals: the argument of `x + i y`
in `(-π, π]`, and `0` at the origin. -/
noncomputable def atan2 (y x : ℝ) : ℝ := Complex.arg ⟨x, y⟩

/-- `Eigen::Quaterniond`, built as in `Quaterniond(w, x, y, z)`. -/
structure Quaterniond where
  w : ℝ
  x : ℝ
  y : ℝ
  z : ℝ

/-- `Quaterniond::squaredNorm()`. -/
def Quaterniond.squaredNorm (q : Quaterniond) : ℝ :=
  q.x * q.x + q.y * q.y + q.z * q.z + q.w * q.w

/-- `Quaterniond::norm()`. -/
noncomputable def Quaterniond.norm (q : Quaterniond) : ℝ :=
  Real.sqrt q.squaredNorm

/-- `Quaterniond::normalize()`: the coefficients are divided by the norm when
the squared norm is positive, and left alone otherwise
(`if (z > 0) derived() /= sqrt(z)` in `MatrixBase::normalize`). -/
noncomputable def Quaterniond.normalize (q : Quaterniond) : Quaterniond :=
  let z := q.squaredNorm
  if 0 < z then
    ⟨q.w / Real.sqrt z, q.x / Real.sqrt z, q.y / Real.sqrt z, q.z / Real.sqrt z⟩
  else q

/-- `Quaterniond::toRotationMatrix()`. -/
def Quaterniond.toRotationMatrix (q : Quaterniond) : Matrix3d :=
  let tx := 2 * q.x
  let ty := 2 * q.y
  let tz := 2 * q.z
  let twx := tx * q.w
  let twy := ty * q.w
  let twz := tz * q.w
  let txx := tx * q.x
  let txy := ty * q.x
  let txz := tz * q.x
  let tyy := ty * q.y
  let tyz := tz * q.y
  let tzz := tz * q.z
  !![1 - (tyy + tzz), txy - twz, txz + twy;
     txy + twz, 1 - (txx + tzz), tyz - twx;
     txz - twy, tyz + twx, 1 - (txx + tyy)]

/-- The constructor `Quaterniond(const Matrix3d&)` (Shoemake's method, as in
`quaternionbase_assign_impl<Other,3,3>::run`): when the trace is positive the
scalar part is the pivot, otherwise the largest diagonal entry `i` selects the
pivot among the vector coefficients (`j = (i+1)%3`, `k = (j+1)%3`). -/
noncomputable def quaternionFromMatrix (mat : Matrix3d) : Quaterniond :=
  let t := mat 0 0 + mat 1 1 + mat 2 2
  if 0 < t then
    let t1 := Real.sqrt (t + 1)
    let w := 0.5 * t1
    let t2 := 0.5 / t1
    ⟨w, (mat 2 1 - mat 1 2) * t2, (mat 0 2 - mat 2 0) * t2, (mat 1 0 - mat 0 1) * t2⟩
  else
    let i0 : Fin 3 := if mat 1 1 > mat 0 0 then 1 else 0
    let i : Fin 3 := if mat 2 2 > mat i0 i0 then 2 else i0
    let j : Fin 3 := i + 1
    let k : Fin 3 := j + 1
    let t1 := Real.sqrt (mat i i - mat j j - mat k k + 1)
    let t2 := 0.5 / t1
    let coeffs : Fin 3 → ℝ := fun n =>
      if n = i then 0.5 * t1
      else if n = j then (mat j i + mat i j) * t2
      else (mat k i + mat i k) * t2
    ⟨(mat k j - mat j k) * t2, coeffs 0, coeffs 1, coeffs 2⟩

/-- `AngleAxisd(angle, axis).toRotationMatrix()`. -/
noncomputable def angleAxisMatrix (angle : ℝ) (axis : Vector3d) : Matrix3d :=
  let s := Real.sin angle
  let c := Real.cos angle
  let sin_axis : Vector3d := fun n => s * axis n
  let cos1_axis : Vector3d := fun n => (1 - c) * axis n
  let t01 := cos1_axis 0 * axis 1
  let t02 := cos1_axis 0 * axis 2
  let t12 := cos1_axis 1 * axis 2
  !![cos1_axis 0 * axis 0 + c, t01 - sin_axis 2, t02 + sin_axis 1;
     t01 + sin_axis 2, cos1_axis 1 * axis 1 + c, t12 - sin_axis 0;
     t02 - sin_axis 1, t12 + sin_axis 0, cos1_axis 2 * axis 2 + c]

/-- `Eigen::Vector3d::UnitX()`. -/
def unitX : Vector3d := ![1, 0, 0]

/-- `Eigen::Vector3d::UnitY()`. -/
def unitY : Vector3d := ![0, 1, 0]

/-- `Eigen::Vector3d::UnitZ()`. -/
def unitZ : Vector3d := ![0, 0, 1]

/-- `Matrix3d::eulerAngles(0, 1, 2)`: the branch `a0 != a2` of
`MatrixBase::eulerAngles` with `odd = 0`, `i = 0`, `j = 1`, `k = 2`; the
result is negated at the end because `odd` is `0`. The angles returned
satisfy `mat = Rx(res 0) * Ry(res 1) * Rz(res 2)` for a rotation `mat`. -/
noncomputable def eulerAngles012 (mat : Matrix3d) : Vector3d :=
  let r0 := atan2 (mat 1 2) (mat 2 2)
  let c2 := Real.sqrt (mat 0 0 * mat 0 0 + mat 0 1 * mat 0 1)
  let r0a := if 0 < r0 then r0 - Real.pi else r0
  let r1 := if 0 < r0 then atan2 (-mat 0 2) (-c2) else atan2 (-mat 0 2) c2
  let s1 := Real.sin r0a
  let c1 := Real.cos r0a
  let r2 := atan2 (s1 * mat 2 0 - c1 * mat 1 0) (c1 * mat 1 1 - s1 * mat 2 1)
  ![-r0a, -r1, -r2]

/-- `Eigen::Affine3d`: a linear part and a translation; `matrix()` has the
bottom row `[0, 0, 0, 1]`. -/
structure Affine3d where
  linear : Matrix3d
  translation : Vector3d

/-- `Affine3d::matrix()`. -/
def Affine3d.matrix (a : Affine3d) : Matrix4d :=
  !![a.linear 0 0, a.linear 0 1, a.linear 0 2, a.translation 0;
     a.linear 1 0, a.linear 1 1, a.linear 1 2, a.translation 1;
     a.linear 2 0, a.linear 2 1, a.linear 2 2, a.translation 2;
     0, 0, 0, 1]

/-- `Translation3d(x, y, z) * r` for a rotation `r` given by its matrix. -/
def translationTimesRotation (t : Vector3d) (r : Matrix3d) : Affine3d :=
  ⟨r, t⟩

/-- `transform * r` for a rotation `r` given by its matrix
(`Transform::rotate`: the linear part is multiplied on the right). -/
def Affine3d.timesRotation (a : Affine3d) (r : Matrix3d) : Affine3d :=
  ⟨a.linear * r, a.translation⟩

/-- `T.block<3, 3>(0, 0)`. -/
def block33 (T : Matrix4d) : Matrix3d :=
  !![T 0 0, T 0 1, T 0 2;
     T 1 0, T 1 1, T 1 2;
     T 2 0, T 2 1, T 2 2]

/-- `T.block<3, 1>(0, 3)`. -/
def block31 (T : Matrix4d) : Vector3d :=
  ![T 0 3, T 1 3, T 2 3]

/-! ## Conversion utilities of `class Lily` -/

/-- The quantity `sy` of `rotation_matrix_to_euler_angles`. -/
noncomputable def euler_sy (R : Matrix3d) : ℝ :=
  Real.sqrt (R 0 0 * R 0 0 + R 1 0 * R 1 0)

/-- The test `singular = sy < 1e-6` of `rotation_matrix_to_euler_angles`. -/
abbrev euler_singular (R : Matrix3d) : Prop := euler_sy R < 1e-6

/-- `Lily::rotation_matrix_to_euler_angles`, returning `(x, y, z)`. -/
noncomputable def rotation_matrix_to_euler_angles (R : Matrix3d) : Vector3d :=
  let sy := euler_sy R
  if ¬ euler_singular R then
    ![atan2 (R 2 1) (R 2 2), atan2 (-R 2 0) sy, atan2 (R 1 0) (R 0 0)]
  else
    ![atan2 (-R 1 2) (R 1 1), atan2 (-R 2 0) sy, 0]

/-- `Lily::transform_matrix_to_euler_angles`. -/
noncomputable def transform_matrix_to_euler_angles (T : Matrix4d) : Vector3d :=
  rotation_matrix_to_euler_angles (block33 T)

/-- `Lily::transform_matrix_to_quaternion`: the vector `[w, x, y, z]`. -/
noncomputable def transform_matrix_to_quaternion (T : Matrix4d) : Fin 4 → ℝ :=
  let quat := (quaternionFromMatrix (block33 T)).normalize
  ![quat.w, quat.x, quat.y, quat.z]

/-- `Lily::transform_matrix_to_translation`. -/
def transform_matrix_to_translation (T : Matrix4d) : Vector3d :=
  block31 T

/-- `Lily::quaternion_to_euler_angles` on `q = [w, x, y, z]`. -/
noncomputable def quaternion_to_euler_angles (q : Fin 4 → ℝ) : Vector3d :=
  let quat := (Quaterniond.mk (q 0) (q 1) (q 2) (q 3)).normalize
  eulerAngles012 quat.toRotationMatrix

/-- `Lily::calculate_tf_matrix_from_translation_and_rotation` on
`translation = [x, y, z]` and `rotation = [w, x, y, z]`. -/
noncomputable def calculate_tf_matrix_from_translation_and_rotation
    (translation : Vector3d) (rotation : Fin 4 → ℝ) : Matrix4d :=
  let quat := (Quaterniond.mk (rotation 0) (rotation 1) (rotation 2) (rotation 3)).normalize
  (translationTimesRotation ![translation 0, translation 1, translation 2]
    quat.toRotationMatrix).matrix

/-! ## Session state of `class Lily` -/

/-- `std::unordered_map<std::string, V>`: a finite map with unique keys. -/
abbrev UnorderedMap (V : Type) := AList (fun _ : String => V)

/-- `pcl::PointXYZI`. -/
structure PointXYZI where
  x : ℝ
  y : ℝ
  z : ℝ
  intensity : ℝ

/-- `pcl::PointCloud<pcl::PointXYZI>`; a `Ptr` to it is an `Option`, with
`none` for `nullptr`. -/
structure PointCloud where
  points : List PointXYZI

/-- `dynamic_tf_config::dynamicConfig`: the topic selector and the six
manual parameters. -/
structure DynamicConfig where
  lidar_topic : String
  x : ℝ
  y : ℝ
  z : ℝ
  roll : ℝ
  pitch : ℝ
  yaw : ℝ

/-- The node `config_[topic]["transform"]` of the YAML configuration. -/
structure TransformNode where
  translation : Vector3d
  rotation : Fin 4 → ℝ
  rotation_euler : Option Vector3d

/-- One record of the loaded YAML file, as `init` reads it. `file_cloud` is
what `pcl::io::loadPCDFile` yields for `file_path` (`none` when it returns
`-1`). -/
structure ConfigEntry where
  topic : String
  is_main : Bool
  load_from_file : Bool
  file_cloud : Option PointCloud
  transform : TransformNode

/-- The member variables of `class Lily` that the conversions, the readiness
check, the manual-tuning callback and `save_config` read or write. `config_`
keeps the `transform` node of every topic. -/
structure Lily where
  manual_mode_ : Bool
  main_topic_ : String
  config_ : UnorderedMap TransformNode
  cloud_map_ : UnorderedMap (Option PointCloud)
  tf_matrix_map_ : UnorderedMap Matrix4d
  dynamic_config_map_ : UnorderedMap DynamicConfig
  last_topic_name_ : String
  flash_status_bar_flag_ : Bool
  temp_config_ : DynamicConfig

/-- The object before `init`: empty maps and the default member values of
`lily.h` (`last_topic_name_ = ""`, `flash_status_bar_flag_ = false`). -/
def Lily.fresh (manual_mode : Bool) : Lily :=
  { manual_mode_ := manual_mode
    main_topic_ := ""
    config_ := ∅
    cloud_map_ := ∅
    tf_matrix_map_ := ∅
    dynamic_config_map_ := ∅
    last_topic_name_ := ""
    flash_status_bar_flag_ := false
    temp_config_ := ⟨"", 0, 0, 0, 0, 0, 0⟩ }

/-- The expression `(tl * rot_z * rot_y * rot_x).matrix()` of
`dynamic_config_callback`, in `double`, with `tl` the translation
`(x, y, z)` and `rot_x`, `rot_y`, `rot_z` the angle-axis rotations by `roll`,
`pitch`, `yaw` about the unit axes. -/
noncomputable def compose_tf_matrix (c : DynamicConfig) : Matrix4d :=
  let rot_x := angleAxisMatrix c.roll unitX
  let rot_y := angleAxisMatrix c.pitch unitY
  let rot_z := angleAxisMatrix c.yaw unitZ
  (((translationTimesRotation ![c.x, c.y, c.z] rot_z).timesRotation rot_y).timesRotation
    rot_x).matrix

/-! ## Single precision -/

/-- Rounding of a real to the nearest integer, ties to the even one. -/
noncomputable def roundTiesToEven (q : ℝ) : ℤ :=
  if q - ⌊q⌋ < 1 / 2 then ⌊q⌋
  else if 1 / 2 < q - ⌊q⌋ then ⌊q⌋ + 1
  else if Even ⌊q⌋ then ⌊q⌋
  else ⌊q⌋ + 1

/-- The conversion of a `double` to `float` (binary32: 24-bit significand,
least exponent `-126`, below which the spacing stays `2^-149`), rounding to
nearest, ties to even; the result is kept as a real. The model has no
infinities: magnitudes from `2^128` on are outside it. -/
noncomputable def toFloat (x : ℝ) : ℝ :=
  let e : ℤ := max (Int.log 2 |x|) (-126)
  (roundTiesToEven (x / 2 ^ (e - 23)) : ℝ) * 2 ^ (e - 23)

/-- The `float` sum. -/
noncomputable def addf (a b : ℝ) : ℝ := toFloat (a + b)

/-- The `float` difference. -/
noncomputable def subf (a b : ℝ) : ℝ := toFloat (a - b)

/-- The `float` product. -/
noncomputable def mulf (a b : ℝ) : ℝ := toFloat (a * b)

/-- The `float` sine, taken as the rounded exact sine. -/
noncomputable def sinf (a : ℝ) : ℝ := toFloat (Real.sin a)

/-- The `float` cosine, taken as the rounded exact cosine. -/
noncomputable def cosf (a : ℝ) : ℝ := toFloat (Real.cos a)

/-- `AngleAxisf(angle, axis).toRotationMatrix()`: the computation of
`angleAxisMatrix` with every operation in `float`. -/
noncomputable def angleAxisMatrixf (angle : ℝ) (axis : Vector3d) : Matrix3d :=
  let s := sinf angle
  let c := cosf angle
  let sin_axis : Vector3d := fun n => mulf s (axis n)
  let cos1_axis : Vector3d := fun n => mulf (subf 1 c) (axis n)
  let t01 := mulf (cos1_axis 0) (axis 1)
  let t02 := mulf (cos1_axis 0) (axis 2)
  let t12 := mulf (cos1_axis 1) (axis 2)
  !![addf (mulf (cos1_axis 0) (axis 0)) c, subf t01 (sin_axis 2), addf t02 (sin_axis 1);
     addf t01 (sin_axis 2), addf (mulf (cos1_axis 1) (axis 1)) c, subf t12 (sin_axis 0);
     subf t02 (sin_axis 1), addf t12 (sin_axis 0), addf (mulf (cos1_axis 2) (axis 2)) c]

/-- The product of two `Matrix3f`: every entry is the `float` sum, from left
to right, of the three `float` products. -/
noncomputable def mulMatrix3f (a b : Matrix3d) : Matrix3d :=
  Matrix.of fun i j =>
    addf (addf (mulf (a i 0) (b 0 j)) (mulf (a i 1) (b 1 j))) (mulf (a i 2) (b 2 j))

/-- The expression `(tl * rot_z * rot_y * rot_x).matrix()` of the manual
branch of `save_config`, which is evaluated in `float` (`Matrix4f`,
`Translation3f`, `AngleAxisf`) and then cast to `double`: the six parameters
are converted to `float`, the three rotation matrices are computed and
multiplied in `float`, and the cast back is exact. -/
noncomputable def compose_tf_matrix_single (c : DynamicConfig) : Matrix4d :=
  let rot_x := angleAxisMatrixf (toFloat c.roll) unitX
  let rot_y := angleAxisMatrixf (toFloat c.pitch) unitY
  let rot_z := angleAxisMatrixf (toFloat c.yaw) unitZ
  (Affine3d.mk (mulMatrix3f (mulMatrix3f rot_z rot_y) rot_x)
    ![toFloat c.x, toFloat c.y, toFloat c.z]).matrix

/-- One iteration of the loop of `Lily::init` over the configuration, on the
modelled members; `none` is the `return false` after a failed
`loadPCDFile`. Records with a `use_points` key are outside the model: for
them `init` also transforms `*cloud_map_[topic]` and spins until enough
clicked points have arrived. The subscriber/publisher set-up only touches
`subs_` and `pubs_map_`, which are not part of the modelled state. -/
noncomputable def init_entry (s : Lily) (e : ConfigEntry) : Option Lily :=
  let topic := e.topic
  let translation := e.transform.translation
  let rotation := e.transform.rotation
  let euler_angles_vec := quaternion_to_euler_angles rotation
  let tf_matrix := calculate_tf_matrix_from_translation_and_rotation translation rotation
  let config : DynamicConfig :=
    ⟨topic, translation 0, translation 1, translation 2,
      euler_angles_vec 0, euler_angles_vec 1, euler_angles_vec 2⟩
  let s1 : Lily :=
    { s with
      config_ := s.config_.insert topic e.transform
      dynamic_config_map_ := s.dynamic_config_map_.insert topic config
      main_topic_ := if e.is_main then topic else s.main_topic_ }
  if e.load_from_file then
    match e.file_cloud with
    | none => none
    | some cloud =>
      some { s1 with
        cloud_map_ := s1.cloud_map_.insert topic (some cloud)
        tf_matrix_map_ := s1.tf_matrix_map_.insert topic tf_matrix }
  else
    some { s1 with
      cloud_map_ := s1.cloud_map_.insert topic none
      tf_matrix_map_ := s1.tf_matrix_map_.insert topic tf_matrix }

/-- `Lily::init` on the records of the loaded configuration file. -/
noncomputable def init (manual_mode : Bool) (config : List ConfigEntry) : Option Lily :=
  config.foldlM init_entry (Lily.fresh manual_mode)

/-- `Lily::cloud_map_full_check`. -/
def cloud_map_full_check (s : Lily) : Bool :=
  s.cloud_map_.entries.all fun e => e.2.isSome

/-- `Lily::callback`: the message, converted by `pcl::fromROSMsg` into a
freshly allocated cloud, is stored for `topic_name`. -/
def callback (s : Lily) (msg : PointCloud) (topic_name : String) : Lily :=
  { s with cloud_map_ := s.cloud_map_.insert topic_name (some msg) }

/-- The three vectors that `save_config` writes for a transform matrix. -/
noncomputable def save_transform (tf_matrix : Matrix4d) : TransformNode :=
  { translation := transform_matrix_to_translation tf_matrix
    rotation := transform_matrix_to_quaternion tf_matrix
    rotation_euler := some (transform_matrix_to_euler_angles tf_matrix) }

/-- `Lily::save_config`: in manual mode every entry of `dynamic_config_map_`
is composed into a matrix in `float`, cast to `double` and decomposed into
`config_`; otherwise every entry of `tf_matrix_map_` is decomposed into
`config_`. The file written is the resulting `config_`. -/
noncomputable def save_config (s : Lily) : Lily :=
  if s.manual_mode_ then
    { s with
      config_ := s.dynamic_config_map_.entries.foldl
        (fun cfg e => cfg.insert e.1 (save_transform (compose_tf_matrix_single e.2)))
        s.config_ }
  else
    { s with
      config_ := s.tf_matrix_map_.entries.foldl
        (fun cfg e => cfg.insert e.1 (save_transform e.2)) s.config_ }

/-- `Lily::dynamic_config_callback`. Reading `cloud_map_[topic]` of a key that
is absent inserts a null entry, as `operator[]` does. -/
noncomputable def dynamic_config_callback (s : Lily) (config : DynamicConfig) : Lily :=
  let topic := config.lidar_topic
  if topic = "save" then save_config s
  else
    match s.dynamic_config_map_.lookup topic with
    | none => s
    | some stored =>
      if topic ≠ s.last_topic_name_ then
        { s with
          last_topic_name_ := topic
          flash_status_bar_flag_ := true
          temp_config_ := stored }
      else
        let s1 : Lily :=
          { s with dynamic_config_map_ := s.dynamic_config_map_.insert topic config }
        match s1.cloud_map_.lookup topic with
        | some (some _) =>
          { s1 with tf_matrix_map_ := s1.tf_matrix_map_.insert topic (compose_tf_matrix config) }
        | some none => s1
        | none => { s1 with cloud_map_ := s1.cloud_map_.insert topic none }

/-- `Lily::flash_status_bar`: the staged `temp_config_` is pushed to the
reconfigure server and the flag is cleared. -/
def flash_status_bar (s : Lily) : Lily :=
  if s.flash_status_bar_flag_ then { s with flash_status_bar_flag_ := false } else s

/-- An event dispatched by `ros::spinOnce()`: a point cloud for a subscribed
topic (handled by `callback`) or a manual-tuning change (handled by
`dynamic_config_callback`). -/
inductive Event where
  | cloud (msg : PointCloud) (topic_name : String)
  | reconfigure (config : DynamicConfig)

/-- The handler that runs for an event. -/
noncomputable def handle (s : Lily) : Event → Lily
  | Event.cloud msg topic_name => callback s msg topic_name
  | Event.reconfigure config => dynamic_config_callback s config

/-- The state after a sequence of events has been handled in order. -/
noncomputable def run (s : Lily) (events : List Event) : Lily :=
  events.foldl handle s

/-! ## The composition written with homogeneous matrices -/

/-- The homogeneous matrix of the translation by `(x, y, z)`. -/
def translation4 (x y z : ℝ) : Matrix4d :=
  !![1, 0, 0, x;
     0, 1, 0, y;
     0, 0, 1, z;
     0, 0, 0, 1]

/-- The rotation by `a` about the x axis. -/
noncomputable def rotX (a : ℝ) : Matrix3d :=
  !![1, 0, 0;
     0, Real.cos a, -Real.sin a;
     0, Real.sin a, Real.cos a]

/-- The rotation by `a` about the y axis. -/
noncomputable def rotY (a : ℝ) : Matrix3d :=
  !![Real.cos a, 0, Real.sin a;
     0, 1, 0;
     -Real.sin a, 0, Real.cos a]

/-- The rotation by `a` about the z axis. -/
noncomputable def rotZ (a : ℝ) : Matrix3d :=
  !![Real.cos a, -Real.sin a, 0;
     Real.sin a, Real.cos a, 0;
     0, 0, 1]

/-- A `3 x 3` matrix as a homogeneous `4 x 4` matrix without translation. -/
def homogeneous (r : Matrix3d) : Matrix4d :=
  !![r 0 0, r 0 1, r 0 2, 0;
     r 1 0, r 1 1, r 1 2, 0;
     r 2 0, r 2 1, r 2 2, 0;
     0, 0, 0, 1]

/-- The transform `Translation(x,y,z) * Rz(yaw) * Ry(pitch) * Rx(roll)` as a
product of homogeneous matrices. -/
noncomputable def translation_rz_ry_rx (x y z roll pitch yaw : ℝ) : Matrix4d :=
  translation4 x y z * homogeneous (rotZ yaw) * homogeneous (rotY pitch) *
    homogeneous (rotX roll)

/-! ## Valid rigid transforms -/

/-- A rotation matrix: orthonormal with determinant `+1`. -/
structure IsRotation (R : Matrix3d) : Prop where
  orth : R.transpose * R = 1
  det : R.det = 1

/-- A valid rigid transform: bottom row `[0, 0, 0, 1]` and an upper-left
`3 x 3` block that is a rotation matrix. -/
structure IsRigid (T : Matrix4d) : Prop where
  row30 : T 3 0 = 0
  row31 : T 3 1 = 0
  row32 : T 3 2 = 0
  row33 : T 3 3 = 1
  rot : IsRotation (block33 T)

/-- The scalar equations satisfied by the entries of a rotation matrix:
orthonormal columns, orthonormal rows, and every entry equal to its cofactor. -/
structure RotFacts (m : Matrix3d) : Prop where
  col00 : m 0 0 * m 0 0 + m 1 0 * m 1 0 + m 2 0 * m 2 0 = 1
  col01 : m 0 0 * m 0 1 + m 1 0 * m 1 1 + m 2 0 * m 2 1 = 0
  col02 : m 0 0 * m 0 2 + m 1 0 * m 1 2 + m 2 0 * m 2 2 = 0
  col11 : m 0 1 * m 0 1 + m 1 1 * m 1 1 + m 2 1 * m 2 1 = 1
  col12 : m 0 1 * m 0 2 + m 1 1 * m 1 2 + m 2 1 * m 2 2 = 0
  col22 : m 0 2 * m 0 2 + m 1 2 * m 1 2 + m 2 2 * m 2 2 = 1
  row00 : m 0 0 * m 0 0 + m 0 1 * m 0 1 + m 0 2 * m 0 2 = 1
  row01 : m 0 0 * m 1 0 + m 0 1 * m 1 1 + m 0 2 * m 1 2 = 0
  row02 : m 0 0 * m 2 0 + m 0 1 * m 2 1 + m 0 2 * m 2 2 = 0
  row11 : m 1 0 * m 1 0 + m 1 1 * m 1 1 + m 1 2 * m 1 2 = 1
  row12 : m 1 0 * m 2 0 + m 1 1 * m 2 1 + m 1 2 * m 2 2 = 0
  row22 : m 2 0 * m 2 0 + m 2 1 * m 2 1 + m 2 2 * m 2 2 = 1
  cof00 : m 0 0 = m 1 1 * m 2 2 - m 1 2 * m 2 1
  cof01 : m 0 1 = m 1 2 * m 2 0 - m 1 0 * m 2 2
  cof02 : m 0 2 = m 1 0 * m 2 1 - m 1 1 * m 2 0
  cof10 : m 1 0 = m 0 2 * m 2 1 - m 0 1 * m 2 2
  cof11 : m 1 1 = m 0 0 * m 2 2 - m 0 2 * m 2 0
  cof12 : m 1 2 = m 0 1 * m 2 0 - m 0 0 * m 2 1
  cof20 : m 2 0 = m 0 1 * m 1 2 - m 0 2 * m 1 1
  cof21 : m 2 1 = m 0 2 * m 1 0 - m 0 0 * m 1 2
  cof22 : m 2 2 = m 0 0 * m 1 1 - m 0 1 * m 1 0


/-! ## Sample data -/

/-- A sample rigid transform: the rotation about the x axis with cosine
`-119/169` and sine `-120/169`, and the translation `(1, 2, 3)`. -/
noncomputable def sampleTransform : Matrix4d :=
  !![1, 0, 0, 1;
     0, -119 / 169, 120 / 169, 2;
     0, -120 / 169, -119 / 169, 3;
     0, 0, 0, 1]

/-- The transform node of the identity: no translation, quaternion
`[1, 0, 0, 0]`. -/
def identityNode : TransformNode :=
  { translation := ![0, 0, 0]
    rotation := ![1, 0, 0, 0]
    rotation_euler := none }

/-- A configuration with the single reference topic `ref`, at the identity,
whose cloud is not loaded from a file. -/
def sampleConfig : List ConfigEntry :=
  [{ topic := "ref", is_main := true, load_from_file := false, file_cloud := none,
     transform := identityNode }]

/-- The state after `init` on `sampleConfig` in manual mode. -/
noncomputable def sampleState : Lily :=
  (init true sampleConfig).getD (Lily.fresh true)

/-- A manual-tuning event for `ref` with all six parameters `0`. -/
def sampleSelect : DynamicConfig := ⟨"ref", 0, 0, 0, 0, 0, 0⟩

/-- A manual-tuning event for `ref` with `x = 5` and the other parameters `0`. -/
def sampleEdit : DynamicConfig := ⟨"ref", 5, 0, 0, 0, 0, 0⟩

/-- A configuration whose single topic is named `save`. -/
def saveNamedConfig : List ConfigEntry :=
  [{ topic := "save", is_main := true, load_from_file := false, file_cloud := none,
     transform := identityNode }]

/-- The state after `init` on `saveNamedConfig` in manual mode. -/
noncomputable def saveNamedState : Lily :=
  (init true saveNamedConfig).getD (Lily.fresh true)

/-- The sample state after an empty cloud has been received for `ref` and
`ref` has been selected for manual tuning. -/
noncomputable def sampleSelected : Lily :=
  dynamic_config_callback (callback sampleState ⟨[]⟩ "ref") sampleSelect

/-- A configuration with the reference topic `ref` and a second topic `aux`
whose cloud is loaded from a file. -/
def twoTopicConfig : List ConfigEntry :=
  [{ topic := "ref", is_main := true, load_from_file := false, file_cloud := none,
     transform := identityNode },
   { topic := "aux", is_main := false, load_from_file := true, file_cloud := some ⟨[]⟩,
     transform := identityNode }]

/-- The state after `init` on `twoTopicConfig` in manual mode. -/
noncomputable def twoTopicState : Lily :=
  (init true twoTopicConfig).getD (Lily.fresh true)

/-- The unit quaternion `[w, x, y, z] = [1/2, 1/2, -1/2, 1/2]`, whose rotation
is `Rx(π/2) * Rz(π/2)`. -/
noncomputable def skewQuaternion : Fin 4 → ℝ := ![1 / 2, 1 / 2, -1 / 2, 1 / 2]

/-- A configuration with the single topic `lidar`, rotated by
`skewQuaternion` and not translated. -/
noncomputable def skewConfig : List ConfigEntry :=
  [{ topic := "lidar", is_main := true, load_from_file := false, file_cloud := none,
     transform := { translation := ![0, 0, 0], rotation := skewQuaternion,
                    rotation_euler := none } }]

theorem IsRotation.facts {m : Matrix3d} (h : IsRotation m) : RotFacts m := by
  have hrow : m * m.transpose = 1 := Matrix.mul_eq_one_comm.mp h.orth
  have hadj : m.adjugate = m.transpose := by
    calc m.adjugate = m.adjugate * (m * m.transpose) := by rw [hrow, mul_one]
      _ = (m.adjugate * m) * m.transpose := by rw [Matrix.mul_assoc]
      _ = m.transpose := by rw [Matrix.adjugate_mul, h.det, one_smul, Matrix.one_mul]
  rw [Matrix.adjugate_fin_three] at hadj
  refine ⟨?_, ?_, ?_, ?_, ?_, ?_, ?_, ?_, ?_, ?_, ?_, ?_, ?_, ?_, ?_, ?_, ?_, ?_, ?_, ?_, ?_⟩
  · have e := congrFun (congrFun h.orth 0) 0
    simp [Matrix.mul_apply, Fin.sum_univ_three] at e
    linear_combination e
  · have e := congrFun (congrFun h.orth 0) 1
    simp [Matrix.mul_apply, Fin.sum_univ_three] at e
    linear_combination e
  · have e := congrFun (congrFun h.orth 0) 2
    simp [Matrix.mul_apply, Fin.sum_univ_three] at e
    linear_combination e
  · have e := congrFun (congrFun h.orth 1) 1
    simp [Matrix.mul_apply, Fin.sum_univ_three] at e
    linear_combination e
  · have e := congrFun (congrFun h.orth 1) 2
    simp [Matrix.mul_apply, Fin.sum_univ_three] at e
    linear_combination e
  · have e := congrFun (congrFun h.orth 2) 2
    simp [Matrix.mul_apply, Fin.sum_univ_three] at e
    linear_combination e
  · have e := congrFun (congrFun hrow 0) 0
    simp [Matrix.mul_apply, Fin.sum_univ_three] at e
    linear_combination e
  · have e := congrFun (congrFun hrow 0) 1
    simp [Matrix.mul_apply, Fin.sum_univ_three] at e
    linear_combination e
  · have e := congrFun (congrFun hrow 0) 2
    simp [Matrix.mul_apply, Fin.sum_univ_three] at e
    linear_combination e
  · have e := congrFun (congrFun hrow 1) 1
    simp [Matrix.mul_apply, Fin.sum_univ_three] at e
    linear_combination e
  · have e := congrFun (congrFun hrow 1) 2
    simp [Matrix.mul_apply, Fin.sum_univ_three] at e
    linear_combination e
  · have e := congrFun (congrFun hrow 2) 2
    simp [Matrix.mul_apply, Fin.sum_univ_three] at e
    linear_combination e
  · have e := congrFun (congrFun hadj 0) 0
    simp at e
    linear_combination -e
  · have e := congrFun (congrFun hadj 1) 0
    simp at e
    linear_combination -e
  · have e := congrFun (congrFun hadj 2) 0
    simp at e
    linear_combination -e
  · have e := congrFun (congrFun hadj 0) 1
    simp at e
    linear_combination -e
  · have e := congrFun (congrFun hadj 1) 1
    simp at e
    linear_combination -e
  · have e := congrFun (congrFun hadj 2) 1
    simp at e
    linear_combination -e
  · have e := congrFun (congrFun hadj 0) 2
    simp at e
    linear_combination -e
  · have e := congrFun (congrFun hadj 1) 2
    simp at e
    linear_combination -e
  · have e := congrFun (congrFun hadj 2) 2
    simp at e
    linear_combination -e

/-- A quaternion whose ten pairwise products are the entries of the symmetric
matrix `K` of `m` reproduces `m` and has unit norm. -/
theorem toRotationMatrix_of_products {m : Matrix3d} {q : Quaterniond}
    (pww : 4 * q.w * q.w = (1 + m 0 0 + m 1 1 + m 2 2))
    (pwx : 4 * q.w * q.x = (m 2 1 - m 1 2))
    (pwy : 4 * q.w * q.y = (m 0 2 - m 2 0))
    (pwz : 4 * q.w * q.z = (m 1 0 - m 0 1))
    (pxx : 4 * q.x * q.x = (1 + m 0 0 - m 1 1 - m 2 2))
    (pxy : 4 * q.x * q.y = (m 1 0 + m 0 1))
    (pxz : 4 * q.x * q.z = (m 2 0 + m 0 2))
    (pyy : 4 * q.y * q.y = (1 - m 0 0 + m 1 1 - m 2 2))
    (pyz : 4 * q.y * q.z = (m 2 1 + m 1 2))
    (pzz : 4 * q.z * q.z = (1 - m 0 0 - m 1 1 + m 2 2))
    : q.toRotationMatrix = m ∧ q.squaredNorm = 1 := by
  constructor
  · ext i j
    fin_cases i <;> fin_cases j <;> simp [Quaterniond.toRotationMatrix]
    · linear_combination (-1/2) * pyy + (-1/2) * pzz
    · linear_combination (1/2) * pxy - (1/2) * pwz
    · linear_combination (1/2) * pxz + (1/2) * pwy
    · linear_combination (1/2) * pxy + (1/2) * pwz
    · linear_combination (-1/2) * pxx + (-1/2) * pzz
    · linear_combination (1/2) * pyz - (1/2) * pwx
    · linear_combination (1/2) * pxz - (1/2) * pwy
    · linear_combination (1/2) * pyz + (1/2) * pwx
    · linear_combination (-1/2) * pxx + (-1/2) * pyy
  · simp only [Quaterniond.squaredNorm]
    linear_combination (1/4) * pww + (1/4) * pxx + (1/4) * pyy + (1/4) * pzz

/-- Pivot `w`: the quaternion `K_w· * u` with `4 u² K_ww = 1` reproduces the rotation `m`. -/
theorem toRotationMatrix_of_pivotW {m : Matrix3d} (h : RotFacts m) (q : Quaterniond) (u : ℝ)
    (hw : q.w = (1 + m 0 0 + m 1 1 + m 2 2) * u)
    (hx : q.x = (m 2 1 - m 1 2) * u)
    (hy : q.y = (m 0 2 - m 2 0) * u)
    (hz : q.z = (m 1 0 - m 0 1) * u)
    (hu : 4 * u * u * (1 + m 0 0 + m 1 1 + m 2 2) = 1) :
    q.toRotationMatrix = m ∧ q.squaredNorm = 1 := by
  apply toRotationMatrix_of_products
  · rw [hw]
    linear_combination (1 + m 0 0 + m 1 1 + m 2 2) * hu
  · rw [hw, hx]
    linear_combination (m 2 1 - m 1 2) * hu
  · rw [hw, hy]
    linear_combination (m 0 2 - m 2 0) * hu
  · rw [hw, hz]
    linear_combination (m 1 0 - m 0 1) * hu
  · rw [hx]
    linear_combination (4 * u * u) * ((1) * h.col11 + (1) * h.col22 + (-1) * h.row00 + (-2) * h.cof00) + (1 + m 0 0 - m 1 1 - m 2 2) * hu
  · rw [hx, hy]
    linear_combination (4 * u * u) * ((-1) * h.col01 + (-1) * h.row01 + (-1) * h.cof01 + (-1) * h.cof10) + (m 1 0 + m 0 1) * hu
  · rw [hx, hz]
    linear_combination (4 * u * u) * ((-1) * h.col02 + (-1) * h.row02 + (-1) * h.cof02 + (-1) * h.cof20) + (m 2 0 + m 0 2) * hu
  · rw [hy]
    linear_combination (4 * u * u) * ((1) * h.col00 + (1) * h.col22 + (-1) * h.row11 + (-2) * h.cof11) + (1 - m 0 0 + m 1 1 - m 2 2) * hu
  · rw [hy, hz]
    linear_combination (4 * u * u) * ((-1) * h.col12 + (-1) * h.row12 + (-1) * h.cof12 + (-1) * h.cof21) + (m 2 1 + m 1 2) * hu
  · rw [hz]
    linear_combination (4 * u * u) * ((-1) * h.col22 + (1) * h.row00 + (1) * h.row11 + (-2) * h.cof22) + (1 - m 0 0 - m 1 1 + m 2 2) * hu

/-- Pivot `x`: the quaternion `K_x· * u` with `4 u² K_xx = 1` reproduces the rotation `m`. -/
theorem toRotationMatrix_of_pivotX {m : Matrix3d} (h : RotFacts m) (q : Quaterniond) (u : ℝ)
    (hw : q.w = (m 2 1 - m 1 2) * u)
    (hx : q.x = (1 + m 0 0 - m 1 1 - m 2 2) * u)
    (hy : q.y = (m 1 0 + m 0 1) * u)
    (hz : q.z = (m 2 0 + m 0 2) * u)
    (hu : 4 * u * u * (1 + m 0 0 - m 1 1 - m 2 2) = 1) :
    q.toRotationMatrix = m ∧ q.squaredNorm = 1 := by
  apply toRotationMatrix_of_products
  · rw [hw]
    linear_combination (4 * u * u) * ((1) * h.col11 + (1) * h.col22 + (-1) * h.row00 + (-2) * h.cof00) + (1 + m 0 0 + m 1 1 + m 2 2) * hu
  · rw [hw, hx]
    linear_combination (m 2 1 - m 1 2) * hu
  · rw [hw, hy]
    linear_combination (4 * u * u) * ((-1) * h.col02 + (1) * h.row02 + (-1) * h.cof02 + (1) * h.cof20) + (m 0 2 - m 2 0) * hu
  · rw [hw, hz]
    linear_combination (4 * u * u) * ((1) * h.col01 + (-1) * h.row01 + (1) * h.cof01 + (-1) * h.cof10) + (m 1 0 - m 0 1) * hu
  · rw [hx]
    linear_combination (1 + m 0 0 - m 1 1 - m 2 2) * hu
  · rw [hx, hy]
    linear_combination (m 1 0 + m 0 1) * hu
  · rw [hx, hz]
    linear_combination (m 2 0 + m 0 2) * hu
  · rw [hy]
    linear_combination (4 * u * u) * ((-1) * h.col22 + (1) * h.row00 + (1) * h.row11 + (2) * h.cof22) + (1 - m 0 0 + m 1 1 - m 2 2) * hu
  · rw [hy, hz]
    linear_combination (4 * u * u) * ((1) * h.col12 + (1) * h.row12 + (-1) * h.cof12 + (-1) * h.cof21) + (m 2 1 + m 1 2) * hu
  · rw [hz]
    linear_combination (4 * u * u) * ((1) * h.col00 + (1) * h.col22 + (-1) * h.row11 + (2) * h.cof11) + (1 - m 0 0 - m 1 1 + m 2 2) * hu

/-- Pivot `y`: the quaternion `K_y· * u` with `4 u² K_yy = 1` reproduces the rotation `m`. -/
theorem toRotationMatrix_of_pivotY {m : Matrix3d} (h : RotFacts m) (q : Quaterniond) (u : ℝ)
    (hw : q.w = (m 0 2 - m 2 0) * u)
    (hx : q.x = (m 1 0 + m 0 1) * u)
    (hy : q.y = (1 - m 0 0 + m 1 1 - m 2 2) * u)
    (hz : q.z = (m 2 1 + m 1 2) * u)
    (hu : 4 * u * u * (1 - m 0 0 + m 1 1 - m 2 2) = 1) :
    q.toRotationMatrix = m ∧ q.squaredNorm = 1 := by
  apply toRotationMatrix_of_products
  · rw [hw]
    linear_combination (4 * u * u) * ((1) * h.col00 + (1) * h.col22 + (-1) * h.row11 + (-2) * h.cof11) + (1 + m 0 0 + m 1 1 + m 2 2) * hu
  · rw [hw, hx]
    linear_combination (4 * u * u) * ((1) * h.col12 + (-1) * h.row12 + (1) * h.cof12 + (-1) * h.cof21) + (m 2 1 - m 1 2) * hu
  · rw [hw, hy]
    linear_combination (m 0 2 - m 2 0) * hu
  · rw [hw, hz]
    linear_combination (4 * u * u) * ((-1) * h.col01 + (1) * h.row01 + (1) * h.cof01 + (-1) * h.cof10) + (m 1 0 - m 0 1) * hu
  · rw [hx]
    linear_combination (4 * u * u) * ((-1) * h.col22 + (1) * h.row00 + (1) * h.row11 + (2) * h.cof22) + (1 + m 0 0 - m 1 1 - m 2 2) * hu
  · rw [hx, hy]
    linear_combination (m 1 0 + m 0 1) * hu
  · rw [hx, hz]
    linear_combination (4 * u * u) * ((1) * h.col02 + (1) * h.row02 + (-1) * h.cof02 + (-1) * h.cof20) + (m 2 0 + m 0 2) * hu
  · rw [hy]
    linear_combination (1 - m 0 0 + m 1 1 - m 2 2) * hu
  · rw [hy, hz]
    linear_combination (m 2 1 + m 1 2) * hu
  · rw [hz]
    linear_combination (4 * u * u) * ((1) * h.col11 + (1) * h.col22 + (-1) * h.row00 + (2) * h.cof00) + (1 - m 0 0 - m 1 1 + m 2 2) * hu

/-- Pivot `z`: the quaternion `K_z· * u` with `4 u² K_zz = 1` reproduces the rotation `m`. -/
theorem toRotationMatrix_of_pivotZ {m : Matrix3d} (h : RotFacts m) (q : Quaterniond) (u : ℝ)
    (hw : q.w = (m 1 0 - m 0 1) * u)
    (hx : q.x = (m 2 0 + m 0 2) * u)
    (hy : q.y = (m 2 1 + m 1 2) * u)
    (hz : q.z = (1 - m 0 0 - m 1 1 + m 2 2) * u)
    (hu : 4 * u * u * (1 - m 0 0 - m 1 1 + m 2 2) = 1) :
    q.toRotationMatrix = m ∧ q.squaredNorm = 1 := by
  apply toRotationMatrix_of_products
  · rw [hw]
    linear_combination (4 * u * u) * ((-1) * h.col22 + (1) * h.row00 + (1) * h.row11 + (-2) * h.cof22) + (1 + m 0 0 + m 1 1 + m 2 2) * hu
  · rw [hw, hx]
    linear_combination (4 * u * u) * ((-1) * h.col12 + (1) * h.row12 + (1) * h.cof12 + (-1) * h.cof21) + (m 2 1 - m 1 2) * hu
  · rw [hw, hy]
    linear_combination (4 * u * u) * ((1) * h.col02 + (-1) * h.row02 + (-1) * h.cof02 + (1) * h.cof20) + (m 0 2 - m 2 0) * hu
  · rw [hw, hz]
    linear_combination (m 1 0 - m 0 1) * hu
  · rw [hx]
    linear_combination (4 * u * u) * ((1) * h.col00 + (1) * h.col22 + (-1) * h.row11 + (2) * h.cof11) + (1 + m 0 0 - m 1 1 - m 2 2) * hu
  · rw [hx, hy]
    linear_combination (4 * u * u) * ((1) * h.col01 + (1) * h.row01 + (-1) * h.cof01 + (-1) * h.cof10) + (m 1 0 + m 0 1) * hu
  · rw [hx, hz]
    linear_combination (m 2 0 + m 0 2) * hu
  · rw [hy]
    linear_combination (4 * u * u) * ((1) * h.col11 + (1) * h.col22 + (-1) * h.row00 + (2) * h.cof00) + (1 - m 0 0 + m 1 1 - m 2 2) * hu
  · rw [hy, hz]
    linear_combination (m 2 1 + m 1 2) * hu
  · rw [hz]
    linear_combination (1 - m 0 0 - m 1 1 + m 2 2) * hu

/-- The scaling `t2 = 0.5 / sqrt p` used by `quaternionFromMatrix` for a
positive pivot `p`. -/
theorem pivot_scale {p : ℝ} (hp : 0 < p) :
    4 * (0.5 / Real.sqrt p) * (0.5 / Real.sqrt p) * p = 1 ∧
      0.5 * Real.sqrt p = p * (0.5 / Real.sqrt p) := by
  have hs : 0 < Real.sqrt p := Real.sqrt_pos.mpr hp
  have hss : Real.sqrt p * Real.sqrt p = p := Real.mul_self_sqrt hp.le
  constructor
  · field_simp
    ring
  · field_simp
    linear_combination (1 / 2 : ℝ) * hss

/-- The quaternion built from a rotation matrix has unit norm and converts
back to the same matrix. -/
theorem quaternionFromMatrix_spec {m : Matrix3d} (h : IsRotation m) :
    (quaternionFromMatrix m).toRotationMatrix = m ∧
      (quaternionFromMatrix m).squaredNorm = 1 := by
  have f := h.facts
  unfold quaternionFromMatrix
  by_cases ht : 0 < m 0 0 + m 1 1 + m 2 2
  · have hp : 0 < 1 + m 0 0 + m 1 1 + m 2 2 := by linarith
    have e : m 0 0 + m 1 1 + m 2 2 + 1 = 1 + m 0 0 + m 1 1 + m 2 2 := by ring
    obtain ⟨hu, hpiv⟩ := pivot_scale hp
    simp only [ht, if_true, e]
    exact toRotationMatrix_of_pivotW f _ (0.5 / Real.sqrt (1 + m 0 0 + m 1 1 + m 2 2))
      hpiv rfl rfl rfl hu
  · simp only [ht, if_false]
    by_cases h1 : m 1 1 > m 0 0
    · by_cases h2 : m 2 2 > m 1 1
      · have hp : 0 < 1 - m 0 0 - m 1 1 + m 2 2 := by linarith
        have e : m 2 2 - m 0 0 - m 1 1 + 1 = 1 - m 0 0 - m 1 1 + m 2 2 := by ring
        obtain ⟨hu, hpiv⟩ := pivot_scale hp
        simp [h1, h2]
        rw [e]
        exact toRotationMatrix_of_pivotZ f _ (0.5 / Real.sqrt (1 - m 0 0 - m 1 1 + m 2 2))
          rfl (by dsimp only; ring) (by dsimp only; ring) hpiv hu
      · have hp : 0 < 1 - m 0 0 + m 1 1 - m 2 2 := by linarith
        have e : m 1 1 - m 2 2 - m 0 0 + 1 = 1 - m 0 0 + m 1 1 - m 2 2 := by ring
        obtain ⟨hu, hpiv⟩ := pivot_scale hp
        simp [h1, h2]
        rw [e]
        exact toRotationMatrix_of_pivotY f _ (0.5 / Real.sqrt (1 - m 0 0 + m 1 1 - m 2 2))
          rfl (by dsimp only; ring) hpiv rfl hu
    · by_cases h2 : m 2 2 > m 0 0
      · have hp : 0 < 1 - m 0 0 - m 1 1 + m 2 2 := by linarith
        have e : m 2 2 - m 0 0 - m 1 1 + 1 = 1 - m 0 0 - m 1 1 + m 2 2 := by ring
        obtain ⟨hu, hpiv⟩ := pivot_scale hp
        simp [h1, h2]
        rw [e]
        exact toRotationMatrix_of_pivotZ f _ (0.5 / Real.sqrt (1 - m 0 0 - m 1 1 + m 2 2))
          rfl (by dsimp only; ring) (by dsimp only; ring) hpiv hu
      · have hp : 0 < 1 + m 0 0 - m 1 1 - m 2 2 := by linarith
        have e : m 0 0 - m 1 1 - m 2 2 + 1 = 1 + m 0 0 - m 1 1 - m 2 2 := by ring
        obtain ⟨hu, hpiv⟩ := pivot_scale hp
        simp [h1, h2]
        rw [e]
        exact toRotationMatrix_of_pivotX f _ (0.5 / Real.sqrt (1 + m 0 0 - m 1 1 - m 2 2))
          rfl hpiv rfl rfl hu

/-- Normalizing a quaternion of unit norm leaves it unchanged. -/
theorem normalize_of_unit (q : Quaterniond) (h : q.squaredNorm = 1) : q.normalize = q := by
  unfold Quaterniond.normalize
  simp [h]

/-- The sample transform is a valid rigid transform. -/
theorem sampleTransform_rigid : IsRigid sampleTransform := by
  refine ⟨rfl, rfl, rfl, rfl, ?_, ?_⟩
  · ext i j
    simp only [Matrix.mul_apply, Matrix.transpose_apply, Fin.sum_univ_three]
    fin_cases i <;> fin_cases j <;>
      simp [sampleTransform, block33, -Matrix.vecCons_const] <;> norm_num
  · simp [sampleTransform, block33, Matrix.det_fin_three, -Matrix.vecCons_const]
    norm_num

/-- Rebuilding a rigid transform from its extracted translation and quaternion
gives it back. -/
theorem round_trip_of_rigid (T : Matrix4d) (hT : IsRigid T) :
    calculate_tf_matrix_from_translation_and_rotation
      (transform_matrix_to_translation T) (transform_matrix_to_quaternion T) = T := by
  obtain ⟨hrot, hnorm⟩ := quaternionFromMatrix_spec hT.rot
  have hn := normalize_of_unit _ hnorm
  have hq : Quaterniond.mk (transform_matrix_to_quaternion T 0)
      (transform_matrix_to_quaternion T 1) (transform_matrix_to_quaternion T 2)
      (transform_matrix_to_quaternion T 3) = quaternionFromMatrix (block33 T) := by
    simp [transform_matrix_to_quaternion, hn]
  unfold calculate_tf_matrix_from_translation_and_rotation
  simp only [hq, hn, hrot]
  ext i j
  fin_cases i <;> fin_cases j <;>
    simp [Affine3d.matrix, translationTimesRotation, block33, transform_matrix_to_translation,
      block31, hT.row30, hT.row31, hT.row32, hT.row33, -Matrix.vecCons_const]

/-- C1: for every valid rigid transform `T`, rebuilding the matrix from the
translation and the `[w, x, y, z]` quaternion extracted from `T` gives `T`
back. -/
theorem C1_matrix_quaternion_round_trip (T : Matrix4d) (hT : IsRigid T) :
    calculate_tf_matrix_from_translation_and_rotation
      (transform_matrix_to_translation T) (transform_matrix_to_quaternion T) = T :=
  round_trip_of_rigid T hT

/-- C1 at the sample transform. -/
theorem C1_matrix_quaternion_round_trip_witness :
    IsRigid sampleTransform ∧
      calculate_tf_matrix_from_translation_and_rotation
        (transform_matrix_to_translation sampleTransform)
        (transform_matrix_to_quaternion sampleTransform) = sampleTransform :=
  ⟨sampleTransform_rigid, C1_matrix_quaternion_round_trip sampleTransform sampleTransform_rigid⟩

/-- The scalar part of the quaternion that Eigen builds from the rotation
block of the sample transform. -/
theorem sampleTransform_quaternion_w :
    (quaternionFromMatrix (block33 sampleTransform)).w = -5 / 13 := by
  have h1 : Real.sqrt 576 = 24 := by
    rw [Real.sqrt_eq_iff_mul_self_eq (by norm_num) (by norm_num)]
    norm_num
  have h2 : Real.sqrt 169 = 13 := by
    rw [Real.sqrt_eq_iff_mul_self_eq (by norm_num) (by norm_num)]
    norm_num
  simp [quaternionFromMatrix, block33, sampleTransform, -Matrix.vecCons_const]
  norm_num
  rw [h1, h2]
  norm_num

/-- C9, refuted as stated: the sample transform is a valid rigid transform
whose extracted quaternion has the negative scalar part `w = -5/13`. -/
theorem C9_quaternion_sign_counterexample :
    IsRigid sampleTransform ∧ transform_matrix_to_quaternion sampleTransform 0 = -5 / 13 ∧
      ¬ (0 ≤ transform_matrix_to_quaternion sampleTransform 0) := by
  have hw : transform_matrix_to_quaternion sampleTransform 0 = -5 / 13 := by
    have hn := normalize_of_unit _ (quaternionFromMatrix_spec sampleTransform_rigid.rot).2
    simp [transform_matrix_to_quaternion, hn, sampleTransform_quaternion_w]
  refine ⟨sampleTransform_rigid, hw, ?_⟩
  rw [hw]
  norm_num

/-- C9, amended: for every valid rigid transform `T` the `[w, x, y, z]` vector
returned by `transform_matrix_to_quaternion` has unit norm, converts back to
the rotation block of `T`, and has `w > 0` whenever the trace of the rotation
block is positive; the sign is not canonicalized otherwise. -/
theorem C9_quaternion_unit_norm (T : Matrix4d) (hT : IsRigid T) :
    (transform_matrix_to_quaternion T 0) ^ 2 + (transform_matrix_to_quaternion T 1) ^ 2 +
        (transform_matrix_to_quaternion T 2) ^ 2 + (transform_matrix_to_quaternion T 3) ^ 2 = 1 ∧
      (Quaterniond.mk (transform_matrix_to_quaternion T 0) (transform_matrix_to_quaternion T 1)
        (transform_matrix_to_quaternion T 2)
        (transform_matrix_to_quaternion T 3)).toRotationMatrix = block33 T ∧
      (0 < T 0 0 + T 1 1 + T 2 2 → 0 < transform_matrix_to_quaternion T 0) := by
  obtain ⟨hrot, hnorm⟩ := quaternionFromMatrix_spec hT.rot
  have hn := normalize_of_unit _ hnorm
  have hq : Quaterniond.mk (transform_matrix_to_quaternion T 0)
      (transform_matrix_to_quaternion T 1) (transform_matrix_to_quaternion T 2)
      (transform_matrix_to_quaternion T 3) = quaternionFromMatrix (block33 T) := by
    simp [transform_matrix_to_quaternion, hn]
  refine ⟨?_, ?_, ?_⟩
  · have h0 : transform_matrix_to_quaternion T 0 = (quaternionFromMatrix (block33 T)).w := by
      simp [transform_matrix_to_quaternion, hn]
    have h1 : transform_matrix_to_quaternion T 1 = (quaternionFromMatrix (block33 T)).x := by
      simp [transform_matrix_to_quaternion, hn]
    have h2 : transform_matrix_to_quaternion T 2 = (quaternionFromMatrix (block33 T)).y := by
      simp [transform_matrix_to_quaternion, hn]
    have h3 : transform_matrix_to_quaternion T 3 = (quaternionFromMatrix (block33 T)).z := by
      simp [transform_matrix_to_quaternion, hn]
    rw [h0, h1, h2, h3]
    unfold Quaterniond.squaredNorm at hnorm
    linear_combination hnorm
  · rw [hq, hrot]
  · intro ht
    have h0 : transform_matrix_to_quaternion T 0 = (quaternionFromMatrix (block33 T)).w := by
      simp [transform_matrix_to_quaternion, hn]
    have ht2 : 0 < block33 T 0 0 + block33 T 1 1 + block33 T 2 2 := by
      simpa [block33] using ht
    rw [h0]
    unfold quaternionFromMatrix
    simp only [ht2, if_true]
    have : 0 < Real.sqrt (block33 T 0 0 + block33 T 1 1 + block33 T 2 2 + 1) :=
      Real.sqrt_pos.mpr (by linarith)
    positivity

/-- The rotation matrix of a unit quaternion is orthonormal with determinant
`+1`. -/
theorem toRotationMatrix_isRotation (q : Quaterniond) (h : q.squaredNorm = 1) :
    IsRotation q.toRotationMatrix := by
  unfold Quaterniond.squaredNorm at h
  constructor
  · ext i j
    simp only [Matrix.mul_apply, Matrix.transpose_apply, Fin.sum_univ_three]
    fin_cases i <;> fin_cases j <;>
      simp [Quaterniond.toRotationMatrix, -Matrix.vecCons_const]
    · linear_combination (4 * q.z ^ 2 + 4 * q.y ^ 2) * h
    · linear_combination (-4 * q.x * q.y) * h
    · linear_combination (-4 * q.x * q.z) * h
    · linear_combination (-4 * q.x * q.y) * h
    · linear_combination (4 * q.z ^ 2 + 4 * q.x ^ 2) * h
    · linear_combination (-4 * q.y * q.z) * h
    · linear_combination (-4 * q.x * q.z) * h
    · linear_combination (-4 * q.y * q.z) * h
    · linear_combination (4 * q.y ^ 2 + 4 * q.x ^ 2) * h
  · simp [Matrix.det_fin_three, Quaterniond.toRotationMatrix, -Matrix.vecCons_const]
    linear_combination (4 * q.z ^ 2 + 4 * q.y ^ 2 + 4 * q.x ^ 2) * h

/-- A quaternion of positive squared norm is normalized to its quotient by
the norm, which has unit norm. -/
theorem normalize_of_pos (q : Quaterniond) (h : 0 < q.squaredNorm) :
    q.normalize = ⟨q.w / q.norm, q.x / q.norm, q.y / q.norm, q.z / q.norm⟩ ∧
      q.normalize.squaredNorm = 1 := by
  have hs : 0 < Real.sqrt q.squaredNorm := Real.sqrt_pos.mpr h
  have hss : Real.sqrt q.squaredNorm * Real.sqrt q.squaredNorm = q.squaredNorm :=
    Real.mul_self_sqrt h.le
  have e : q.normalize = ⟨q.w / q.norm, q.x / q.norm, q.y / q.norm, q.z / q.norm⟩ := by
    simp [Quaterniond.normalize, Quaterniond.norm, h]
  refine ⟨e, ?_⟩
  rw [e]
  simp only [Quaterniond.norm]
  generalize Real.sqrt q.squaredNorm = s at hs hss
  have hne : s ≠ 0 := hs.ne'
  simp only [Quaterniond.squaredNorm] at hss ⊢
  field_simp
  linear_combination -hss

/-- The matrix of an affine transform with a rotation as linear part is a
valid rigid transform. -/
theorem isRigid_matrix (a : Affine3d) (h : IsRotation a.linear) : IsRigid a.matrix := by
  have e : block33 a.matrix = a.linear := by
    ext i j
    fin_cases i <;> fin_cases j <;> simp [block33, Affine3d.matrix, -Matrix.vecCons_const]
  refine ⟨rfl, rfl, rfl, rfl, ?_⟩
  rw [e]
  exact h

/-- C8, refuted as stated: for the zero quaternion (norm `0`, below every
positive threshold) the function does not fail, it returns the identity
transform. -/
theorem C8_zero_quaternion_counterexample :
    calculate_tf_matrix_from_translation_and_rotation ![0, 0, 0] ![0, 0, 0, 0] = 1 := by
  ext i j
  fin_cases i <;> fin_cases j <;>
    simp [calculate_tf_matrix_from_translation_and_rotation, Quaterniond.normalize,
      Quaterniond.squaredNorm, Quaterniond.toRotationMatrix, Affine3d.matrix,
      translationTimesRotation, -Matrix.vecCons_const]

/-- For a quaternion of non-zero norm the matrix built from a translation and
the quaternion has the rotation of the normalized quaternion as rotation
block and the translation as last column, and is a valid rigid transform. -/
theorem calculate_tf_matrix_of_pos (t : Vector3d) (q : Fin 4 → ℝ)
    (hq : 0 < (Quaterniond.mk (q 0) (q 1) (q 2) (q 3)).norm) :
    (Quaterniond.mk (q 0 / (Quaterniond.mk (q 0) (q 1) (q 2) (q 3)).norm)
        (q 1 / (Quaterniond.mk (q 0) (q 1) (q 2) (q 3)).norm)
        (q 2 / (Quaterniond.mk (q 0) (q 1) (q 2) (q 3)).norm)
        (q 3 / (Quaterniond.mk (q 0) (q 1) (q 2) (q 3)).norm)).squaredNorm = 1 ∧
      block33 (calculate_tf_matrix_from_translation_and_rotation t q) =
        (Quaterniond.mk (q 0 / (Quaterniond.mk (q 0) (q 1) (q 2) (q 3)).norm)
          (q 1 / (Quaterniond.mk (q 0) (q 1) (q 2) (q 3)).norm)
          (q 2 / (Quaterniond.mk (q 0) (q 1) (q 2) (q 3)).norm)
          (q 3 / (Quaterniond.mk (q 0) (q 1) (q 2) (q 3)).norm)).toRotationMatrix ∧
      block31 (calculate_tf_matrix_from_translation_and_rotation t q) = t ∧
      IsRigid (calculate_tf_matrix_from_translation_and_rotation t q) := by
  have hpos : 0 < (Quaterniond.mk (q 0) (q 1) (q 2) (q 3)).squaredNorm :=
    Real.sqrt_pos.mp hq
  obtain ⟨e, hn⟩ := normalize_of_pos _ hpos
  simp only [] at e
  rw [e] at hn
  refine ⟨hn, ?_, ?_, ?_⟩
  · unfold calculate_tf_matrix_from_translation_and_rotation
    simp only [e]
    ext i j
    fin_cases i <;> fin_cases j <;>
      simp [block33, Affine3d.matrix, translationTimesRotation, -Matrix.vecCons_const]
  · unfold calculate_tf_matrix_from_translation_and_rotation
    ext i
    fin_cases i <;>
      simp [block31, Affine3d.matrix, translationTimesRotation, -Matrix.vecCons_const]
  · unfold calculate_tf_matrix_from_translation_and_rotation
    simp only [e]
    exact isRigid_matrix _ (toRotationMatrix_isRotation _ hn)

/-- C8, amended: the function has no failure path; for every translation `t`
and every quaternion `q` of non-zero norm it returns the matrix whose
rotation block is the rotation of `q / ‖q‖`, a unit quaternion, whose last
column is `t`, and which is a valid rigid transform. -/
theorem C8_nonzero_quaternion_normalized (t : Vector3d) (q : Fin 4 → ℝ)
    (hq : 0 < (Quaterniond.mk (q 0) (q 1) (q 2) (q 3)).norm) :
    (Quaterniond.mk (q 0 / (Quaterniond.mk (q 0) (q 1) (q 2) (q 3)).norm)
        (q 1 / (Quaterniond.mk (q 0) (q 1) (q 2) (q 3)).norm)
        (q 2 / (Quaterniond.mk (q 0) (q 1) (q 2) (q 3)).norm)
        (q 3 / (Quaterniond.mk (q 0) (q 1) (q 2) (q 3)).norm)).squaredNorm = 1 ∧
      block33 (calculate_tf_matrix_from_translation_and_rotation t q) =
        (Quaterniond.mk (q 0 / (Quaterniond.mk (q 0) (q 1) (q 2) (q 3)).norm)
          (q 1 / (Quaterniond.mk (q 0) (q 1) (q 2) (q 3)).norm)
          (q 2 / (Quaterniond.mk (q 0) (q 1) (q 2) (q 3)).norm)
          (q 3 / (Quaterniond.mk (q 0) (q 1) (q 2) (q 3)).norm)).toRotationMatrix ∧
      block31 (calculate_tf_matrix_from_translation_and_rotation t q) = t ∧
      IsRigid (calculate_tf_matrix_from_translation_and_rotation t q) :=
  calculate_tf_matrix_of_pos t q hq

/-- C9 (amended) at the sample transform: unit norm. -/
theorem C9_quaternion_unit_norm_witness :
    IsRigid sampleTransform ∧
      (transform_matrix_to_quaternion sampleTransform 0) ^ 2 +
          (transform_matrix_to_quaternion sampleTransform 1) ^ 2 +
          (transform_matrix_to_quaternion sampleTransform 2) ^ 2 +
          (transform_matrix_to_quaternion sampleTransform 3) ^ 2 = 1 :=
  ⟨sampleTransform_rigid, (C9_quaternion_unit_norm sampleTransform sampleTransform_rigid).1⟩

/-- C8 (amended) at the translation `(1, 2, 3)` and the quaternion
`[1, 1, -1, 1]` of norm `2`. -/
theorem C8_nonzero_quaternion_normalized_witness :
    0 < (Quaterniond.mk 1 1 (-1) 1).norm ∧
      IsRigid (calculate_tf_matrix_from_translation_and_rotation ![1, 2, 3] ![1, 1, -1, 1]) :=
  have h : 0 < (Quaterniond.mk 1 1 (-1) 1).norm :=
    Real.sqrt_pos.mpr (by norm_num [Quaterniond.squaredNorm])
  ⟨h, (C8_nonzero_quaternion_normalized ![1, 2, 3] ![1, 1, -1, 1] h).2.2.2⟩

/-! ### Euler angles -/

/-- `AngleAxisd(a, UnitX())` is the rotation about the x axis. -/
theorem angleAxisMatrix_unitX (a : ℝ) : angleAxisMatrix a unitX = rotX a := by
  ext i j
  fin_cases i <;> fin_cases j <;>
    simp [angleAxisMatrix, unitX, rotX, -Matrix.vecCons_const]

/-- `AngleAxisd(a, UnitY())` is the rotation about the y axis. -/
theorem angleAxisMatrix_unitY (a : ℝ) : angleAxisMatrix a unitY = rotY a := by
  ext i j
  fin_cases i <;> fin_cases j <;>
    simp [angleAxisMatrix, unitY, rotY, -Matrix.vecCons_const]

/-- `AngleAxisd(a, UnitZ())` is the rotation about the z axis. -/
theorem angleAxisMatrix_unitZ (a : ℝ) : angleAxisMatrix a unitZ = rotZ a := by
  ext i j
  fin_cases i <;> fin_cases j <;>
    simp [angleAxisMatrix, unitZ, rotZ, -Matrix.vecCons_const]

/-- The entries of `Rz(yaw) * Ry(pitch) * Rx(roll)`. -/
theorem rotZYX_entries (roll pitch yaw : ℝ) :
    rotZ yaw * rotY pitch * rotX roll =
      !![Real.cos yaw * Real.cos pitch,
          Real.cos yaw * Real.sin pitch * Real.sin roll - Real.sin yaw * Real.cos roll,
          Real.cos yaw * Real.sin pitch * Real.cos roll + Real.sin yaw * Real.sin roll;
         Real.sin yaw * Real.cos pitch,
          Real.sin yaw * Real.sin pitch * Real.sin roll + Real.cos yaw * Real.cos roll,
          Real.sin yaw * Real.sin pitch * Real.cos roll - Real.cos yaw * Real.sin roll;
         -Real.sin pitch, Real.cos pitch * Real.sin roll, Real.cos pitch * Real.cos roll] := by
  ext i j
  fin_cases i <;> fin_cases j <;>
    simp [rotX, rotY, rotZ, Matrix.mul_apply, Fin.sum_univ_three, -Matrix.vecCons_const] <;> ring

/-- For `R = Rz(yaw) * Ry(pitch) * Rx(roll)` the quantity `sy` is
`|cos pitch|`. -/
theorem euler_sy_rotZYX (roll pitch yaw : ℝ) :
    euler_sy (rotZ yaw * rotY pitch * rotX roll) = |Real.cos pitch| := by
  rw [rotZYX_entries, ← Real.sqrt_sq_eq_abs]
  unfold euler_sy
  congr 1
  simp [-Matrix.vecCons_const]
  linear_combination (Real.cos pitch) ^ 2 * Real.sin_sq_add_cos_sq yaw

/-- At `pitch = π/2 - 1e-8` the cosine is `sin 1e-8`, which is below `1e-6`. -/
theorem abs_cos_near_half_pi : |Real.cos (Real.pi / 2 - 1e-8)| < 1e-6 := by
  rw [Real.cos_pi_div_two_sub]
  have hpos : (0 : ℝ) < 1e-8 := by norm_num
  have h1 : Real.sin 1e-8 < 1e-8 := Real.sin_lt hpos
  have h2 : 0 < Real.sin 1e-8 :=
    Real.sin_pos_of_pos_of_lt_pi hpos (by linarith [Real.pi_gt_three])
  rw [abs_of_pos h2]
  have h3 : (1e-8 : ℝ) < 1e-6 := by norm_num
  linarith

/-- In the fallback branch the returned yaw is `0`. -/
theorem yaw_of_singular (R : Matrix3d) (h : euler_singular R) :
    rotation_matrix_to_euler_angles R 2 = 0 := by
  unfold rotation_matrix_to_euler_angles
  simp [h]

/-- C5, refuted as stated: at `pitch = π/2 - 1e-8` (with `roll = yaw = 0`) the
test `sy < 1e-6` holds, so the fallback branch is taken, not the non-singular
one. -/
theorem C5_near_half_pi_counterexample :
    euler_singular (rotZ 0 * rotY (Real.pi / 2 - 1e-8) * rotX 0) ∧
      rotation_matrix_to_euler_angles (rotZ 0 * rotY (Real.pi / 2 - 1e-8) * rotX 0) 2 = 0 := by
  have h : euler_singular (rotZ 0 * rotY (Real.pi / 2 - 1e-8) * rotX 0) := by
    show euler_sy _ < 1e-6
    rw [euler_sy_rotZYX]
    exact abs_cos_near_half_pi
  exact ⟨h, yaw_of_singular _ h⟩

/-- C5, amended: for `R = Rz(yaw) * Ry(pitch) * Rx(roll)` the non-singular
branch is taken exactly when `|cos pitch| ≥ 1e-6`, and the fallback branch
returns yaw `0`; the fallback branch is taken both at `pitch = π/2 - 1e-8` and
at `pitch = π/2`, for any roll and yaw, while `pitch = 0` is non-singular. -/
theorem C5_euler_singularity_threshold (roll pitch yaw : ℝ) :
    (¬ euler_singular (rotZ yaw * rotY pitch * rotX roll) ↔ 1e-6 ≤ |Real.cos pitch|) ∧
      (euler_singular (rotZ yaw * rotY pitch * rotX roll) →
        rotation_matrix_to_euler_angles (rotZ yaw * rotY pitch * rotX roll) 2 = 0) ∧
      (euler_singular (rotZ yaw * rotY (Real.pi / 2 - 1e-8) * rotX roll) ∧
        rotation_matrix_to_euler_angles
          (rotZ yaw * rotY (Real.pi / 2 - 1e-8) * rotX roll) 2 = 0) ∧
      (euler_singular (rotZ yaw * rotY (Real.pi / 2) * rotX roll) ∧
        rotation_matrix_to_euler_angles (rotZ yaw * rotY (Real.pi / 2) * rotX roll) 2 = 0) ∧
      ¬ euler_singular (rotZ yaw * rotY 0 * rotX roll) := by
  have h1 : euler_singular (rotZ yaw * rotY (Real.pi / 2 - 1e-8) * rotX roll) := by
    show euler_sy _ < 1e-6
    rw [euler_sy_rotZYX]
    exact abs_cos_near_half_pi
  have h2 : euler_singular (rotZ yaw * rotY (Real.pi / 2) * rotX roll) := by
    show euler_sy _ < 1e-6
    rw [euler_sy_rotZYX, Real.cos_pi_div_two]
    norm_num
  refine ⟨?_, yaw_of_singular _, ⟨h1, yaw_of_singular _ h1⟩, ⟨h2, yaw_of_singular _ h2⟩, ?_⟩
  · show ¬ euler_sy _ < 1e-6 ↔ _
    rw [euler_sy_rotZYX, not_lt]
  · show ¬ euler_sy _ < 1e-6
    rw [euler_sy_rotZYX, Real.cos_zero]
    norm_num

/-! ### Readiness gate -/

/-- The readiness check holds exactly when no entry of `cloud_map_` is
null. -/
theorem cloud_map_full_check_iff (s : Lily) :
    cloud_map_full_check s = true ↔ ∀ t, s.cloud_map_.lookup t ≠ some none := by
  unfold cloud_map_full_check
  rw [List.all_eq_true]
  constructor
  · intro h t ht
    have hm : (⟨t, none⟩ : Sigma fun _ : String => Option PointCloud) ∈ s.cloud_map_.entries :=
      AList.mem_lookup_iff.mp ht
    have := h _ hm
    simp at this
  · intro h e he
    obtain ⟨k, v⟩ := e
    have hl : s.cloud_map_.lookup k = some v := AList.mem_lookup_iff.mpr he
    cases v with
    | none => exact absurd hl (h k)
    | some c => rfl

/-- `save_config` only writes `config_`. -/
theorem save_config_fields (s : Lily) :
    (save_config s).cloud_map_ = s.cloud_map_ ∧
      (save_config s).tf_matrix_map_ = s.tf_matrix_map_ ∧
      (save_config s).dynamic_config_map_ = s.dynamic_config_map_ ∧
      (save_config s).last_topic_name_ = s.last_topic_name_ ∧
      (save_config s).flash_status_bar_flag_ = s.flash_status_bar_flag_ ∧
      (save_config s).main_topic_ = s.main_topic_ ∧
      (save_config s).manual_mode_ = s.manual_mode_ := by
  unfold save_config
  split <;> simp

/-- A null entry of `cloud_map_` stays null under a manual-tuning event. -/
theorem dynamic_config_callback_null_cloud (s : Lily) (config : DynamicConfig) (t : String)
    (h : s.cloud_map_.lookup t = some none) :
    (dynamic_config_callback s config).cloud_map_.lookup t = some none := by
  unfold dynamic_config_callback
  simp only []
  split
  · rw [(save_config_fields s).1]
    exact h
  · split
    · exact h
    · split
      · exact h
      · split
        · exact h
        · exact h
        · rename_i hnone
          by_cases e : t = config.lidar_topic
          · subst e
            simp
          · simp [AList.lookup_insert_ne e, h]

/-- A null entry of `cloud_map_` stays null under every event other than a
cloud for that topic. -/
theorem run_null_cloud (events : List Event) (s : Lily) (t : String)
    (h : s.cloud_map_.lookup t = some none)
    (hev : ∀ msg, Event.cloud msg t ∉ events) :
    (run s events).cloud_map_.lookup t = some none := by
  induction events generalizing s with
  | nil => exact h
  | cons e rest ih =>
    unfold run
    rw [List.foldl_cons]
    apply ih
    · cases e with
      | cloud msg topic_name =>
        have hne : t ≠ topic_name := by
          intro e
          subst e
          exact hev msg (List.mem_cons_self _ _)
        simp [handle, callback, AList.lookup_insert_ne hne, h]
      | reconfigure config =>
        exact dynamic_config_callback_null_cloud s config t h
    · intro msg hm
      exact hev msg (List.mem_cons_of_mem _ hm)

/-- C4: `cloud_map_full_check` is true exactly when no configured topic has a
null entry in `cloud_map_`; it is false as long as some configured topic has
a null entry, which stays so under every sequence of events that delivers no
cloud for that topic; and it is true right after `callback` stores a cloud for
the only topic whose entry was still null. -/
theorem C4_readiness_gate (s : Lily) (topic : String) (msg : PointCloud)
    (events : List Event) :
    (cloud_map_full_check s = true ↔ ∀ t, s.cloud_map_.lookup t ≠ some none) ∧
      (s.cloud_map_.lookup topic = some none → cloud_map_full_check s = false) ∧
      (s.cloud_map_.lookup topic = some none → (∀ m, Event.cloud m topic ∉ events) →
        cloud_map_full_check (run s events) = false) ∧
      ((∀ t, t ≠ topic → s.cloud_map_.lookup t ≠ some none) →
        cloud_map_full_check (callback s msg topic) = true) := by
  have key : ∀ s' : Lily, s'.cloud_map_.lookup topic = some none →
      cloud_map_full_check s' = false := by
    intro s' h
    rw [← Bool.not_eq_true, cloud_map_full_check_iff]
    intro hall
    exact hall topic h
  refine ⟨cloud_map_full_check_iff s, key s, ?_, ?_⟩
  · intro h hev
    exact key _ (run_null_cloud events s topic h hev)
  · intro h
    rw [cloud_map_full_check_iff]
    intro t
    by_cases e : t = topic
    · subst e
      simp [callback]
    · simp only [callback, AList.lookup_insert_ne e]
      exact h t e

/-- The clouds of the two-topic sample after `init`: none for `ref`, the one
loaded from the file for `aux`. -/
theorem twoTopicState_clouds :
    twoTopicState.cloud_map_.lookup "ref" = some none ∧
      ∀ t, t ≠ "ref" → twoTopicState.cloud_map_.lookup t ≠ some none := by
  have e : twoTopicState.cloud_map_ =
      AList.insert "aux" (some ⟨[]⟩) (AList.insert "ref" none ∅) := by
    simp [twoTopicState, init, init_entry, twoTopicConfig, Lily.fresh, identityNode,
      -AList.insert_empty]
  rw [e]
  constructor
  · rw [AList.lookup_insert_ne (by decide)]
    exact AList.lookup_insert _
  · intro t ht
    by_cases h : t = "aux"
    · subst h
      rw [AList.lookup_insert]
      simp
    · rw [AList.lookup_insert_ne h, AList.lookup_insert_ne ht, AList.lookup_empty]
      simp

/-- C4 at the two-topic sample: the check is false after `init`, while `ref`
has no cloud, and true right after a cloud for `ref` is stored. -/
theorem C4_readiness_gate_witness :
    twoTopicState.cloud_map_.lookup "ref" = some none ∧
      cloud_map_full_check twoTopicState = false ∧
      cloud_map_full_check (callback twoTopicState ⟨[]⟩ "ref") = true :=
  ⟨twoTopicState_clouds.1,
    (C4_readiness_gate twoTopicState "ref" ⟨[]⟩ []).2.1 twoTopicState_clouds.1,
    (C4_readiness_gate twoTopicState "ref" ⟨[]⟩ []).2.2.2 twoTopicState_clouds.2⟩

/-! ### Manual tuning -/

/-- The state reached by `init` on `sampleConfig`. -/
theorem sampleState_eq :
    init true sampleConfig = some sampleState ∧
      sampleState.main_topic_ = "ref" ∧
      sampleState.last_topic_name_ = "" ∧
      sampleState.manual_mode_ = true ∧
      sampleState.cloud_map_.lookup "ref" = some none ∧
      sampleState.tf_matrix_map_.lookup "ref" =
        some (calculate_tf_matrix_from_translation_and_rotation ![0, 0, 0] ![1, 0, 0, 0]) ∧
      (sampleState.dynamic_config_map_.lookup "ref").isSome = true := by
  simp [sampleState, init, init_entry, sampleConfig, Lily.fresh, identityNode,
    -AList.insert_empty]

/-- A switch event: the topic is configured, differs from the active topic and
is not the sentinel. -/
theorem dynamic_config_callback_switch (s : Lily) (config stored : DynamicConfig)
    (hsave : config.lidar_topic ≠ "save")
    (hconf : s.dynamic_config_map_.lookup config.lidar_topic = some stored)
    (hne : config.lidar_topic ≠ s.last_topic_name_) :
    dynamic_config_callback s config =
      { s with
        last_topic_name_ := config.lidar_topic
        flash_status_bar_flag_ := true
        temp_config_ := stored } := by
  unfold dynamic_config_callback
  simp [hsave, hconf, hne]

/-- An applied edit: the topic is configured, equals the active topic and is
not the sentinel; the parameters are stored, and the transform is rebuilt
only when the topic has a cloud. -/
theorem dynamic_config_callback_edit (s : Lily) (config stored : DynamicConfig)
    (hsave : config.lidar_topic ≠ "save")
    (hconf : s.dynamic_config_map_.lookup config.lidar_topic = some stored)
    (heq : config.lidar_topic = s.last_topic_name_) :
    (dynamic_config_callback s config).dynamic_config_map_ =
        s.dynamic_config_map_.insert config.lidar_topic config ∧
      (dynamic_config_callback s config).last_topic_name_ = s.last_topic_name_ ∧
      ((∃ c, s.cloud_map_.lookup config.lidar_topic = some (some c)) →
        (dynamic_config_callback s config).tf_matrix_map_ =
          s.tf_matrix_map_.insert config.lidar_topic (compose_tf_matrix config)) ∧
      ((¬ ∃ c, s.cloud_map_.lookup config.lidar_topic = some (some c)) →
        (dynamic_config_callback s config).tf_matrix_map_ = s.tf_matrix_map_) := by
  obtain ⟨mm, mt, cfg, cm, tf, dm, ltn, fl, tc⟩ := s
  simp only at heq hconf ⊢
  subst heq
  rcases hc : AList.lookup config.lidar_topic cm with _ | _ | c <;>
    simp [dynamic_config_callback, hsave, hconf, hc]

/-- The state reached by `init` on `saveNamedConfig`. -/
theorem saveNamedState_eq :
    init true saveNamedConfig = some saveNamedState ∧
      saveNamedState.last_topic_name_ = "" ∧
      saveNamedState.flash_status_bar_flag_ = false ∧
      (saveNamedState.dynamic_config_map_.lookup "save").isSome = true := by
  simp [saveNamedState, init, init_entry, saveNamedConfig, Lily.fresh, identityNode,
    -AList.insert_empty]

/-- C3, refuted as stated: when the configuration has a topic named `save`
and the active topic is another one (here the initial `""`), an event with
`lidar_topic = "save"` and `x = 5` is taken as the save command: the active
topic is not set to `save` and the pending-flush flag is not raised. -/
theorem C3_save_named_topic_counterexample :
    init true saveNamedConfig = some saveNamedState ∧
      (saveNamedState.dynamic_config_map_.lookup "save").isSome = true ∧
      "save" ≠ saveNamedState.last_topic_name_ ∧
      (dynamic_config_callback saveNamedState ⟨"save", 5, 0, 0, 0, 0, 0⟩).last_topic_name_
        ≠ "save" ∧
      (dynamic_config_callback saveNamedState
        ⟨"save", 5, 0, 0, 0, 0, 0⟩).flash_status_bar_flag_ = false := by
  obtain ⟨h0, h1, h2, h3⟩ := saveNamedState_eq
  have e : dynamic_config_callback saveNamedState ⟨"save", 5, 0, 0, 0, 0, 0⟩ =
      save_config saveNamedState := by
    simp [dynamic_config_callback]
  refine ⟨h0, h3, ?_, ?_, ?_⟩
  · rw [h1]
    decide
  · rw [e, (save_config_fields _).2.2.2.1, h1]
    decide
  · rw [e, (save_config_fields _).2.2.2.2.1, h2]

/-- C3, amended: for every state with active topic `A = last_topic_name_` and
every configured topic `B` different from `A` and from the sentinel `save`, an
event with `lidar_topic = B` and arbitrary field values is load-only: it
changes no stored manual parameters and no transform, sets the active topic to
`B`, stages the stored parameters of `B` in `temp_config_` and raises the
pending-flush flag; the next event with `lidar_topic = B` stores its values as
the parameters of `B`, and the stored parameters of every other topic, `A`
included, are the same after both events. -/
theorem C3_topic_switch_is_load_only (s : Lily) (B : String) (stored first second : DynamicConfig)
    (hne : B ≠ s.last_topic_name_) (hsave : B ≠ "save")
    (hconf : s.dynamic_config_map_.lookup B = some stored)
    (h1 : first.lidar_topic = B) (h2 : second.lidar_topic = B) :
    (dynamic_config_callback s first).dynamic_config_map_ = s.dynamic_config_map_ ∧
      (dynamic_config_callback s first).tf_matrix_map_ = s.tf_matrix_map_ ∧
      (dynamic_config_callback s first).last_topic_name_ = B ∧
      (dynamic_config_callback s first).temp_config_ = stored ∧
      (dynamic_config_callback s first).flash_status_bar_flag_ = true ∧
      (dynamic_config_callback (dynamic_config_callback s first)
        second).dynamic_config_map_.lookup B = some second ∧
      (dynamic_config_callback (dynamic_config_callback s first)
        second).dynamic_config_map_.lookup s.last_topic_name_ =
          s.dynamic_config_map_.lookup s.last_topic_name_ ∧
      ∀ t, t ≠ B →
        (dynamic_config_callback (dynamic_config_callback s first)
          second).dynamic_config_map_.lookup t = s.dynamic_config_map_.lookup t := by
  subst h1
  have e1 := dynamic_config_callback_switch s first stored hsave hconf hne
  have hconf2 : (dynamic_config_callback s first).dynamic_config_map_.lookup
      second.lidar_topic = some stored := by
    rw [e1, h2]
    exact hconf
  have hact : second.lidar_topic = (dynamic_config_callback s first).last_topic_name_ := by
    rw [e1, h2]
  have e2 := (dynamic_config_callback_edit (dynamic_config_callback s first) second stored
    (by rw [h2]; exact hsave) hconf2 hact).1
  have hother : ∀ t, t ≠ first.lidar_topic →
      (dynamic_config_callback (dynamic_config_callback s first)
        second).dynamic_config_map_.lookup t = s.dynamic_config_map_.lookup t := by
    intro t ht
    rw [e2, h2, AList.lookup_insert_ne ht, e1]
  refine ⟨by rw [e1], by rw [e1], by rw [e1], by rw [e1], by rw [e1], ?_, ?_, hother⟩
  · rw [e2, h2]
    simp
  · exact hother _ (fun h => hne h.symm)

/-- C3 (amended) at the sample state: `ref` is selected, then edited. -/
theorem C3_topic_switch_is_load_only_witness :
    "ref" ≠ sampleState.last_topic_name_ ∧
      (sampleState.dynamic_config_map_.lookup "ref").isSome = true ∧
      (dynamic_config_callback sampleState sampleSelect).dynamic_config_map_ =
        sampleState.dynamic_config_map_ ∧
      (dynamic_config_callback sampleState sampleSelect).last_topic_name_ = "ref" ∧
      (dynamic_config_callback (dynamic_config_callback sampleState sampleSelect)
        sampleEdit).dynamic_config_map_.lookup "ref" = some sampleEdit := by
  obtain ⟨_, _, hl, _, _, _, hsome⟩ := sampleState_eq
  have hne : "ref" ≠ sampleState.last_topic_name_ := by
    rw [hl]
    decide
  obtain ⟨stored, hst⟩ := Option.isSome_iff_exists.mp hsome
  have h := C3_topic_switch_is_load_only sampleState "ref" stored sampleSelect sampleEdit
    hne (by decide) hst rfl rfl
  exact ⟨hne, hsome, h.1, h.2.2.1, h.2.2.2.2.2.1⟩

/-- The product of two homogeneous rotations. -/
theorem homogeneous_mul (a b : Matrix3d) :
    homogeneous a * homogeneous b = homogeneous (a * b) := by
  ext i j
  fin_cases i <;> fin_cases j <;>
    simp [homogeneous, Matrix.mul_apply, Fin.sum_univ_succ, -Matrix.vecCons_const]

/-- A translation followed by a homogeneous rotation. -/
theorem translation4_mul_homogeneous (x y z : ℝ) (r : Matrix3d) :
    translation4 x y z * homogeneous r = (Affine3d.mk r ![x, y, z]).matrix := by
  ext i j
  fin_cases i <;> fin_cases j <;>
    simp [homogeneous, translation4, Affine3d.matrix, Matrix.mul_apply, Fin.sum_univ_succ,
      -Matrix.vecCons_const]

/-- Multiplying the matrix of an affine transform by a homogeneous rotation
multiplies the linear part on the right. -/
theorem affine_matrix_mul_homogeneous (a : Affine3d) (r : Matrix3d) :
    a.matrix * homogeneous r = (a.timesRotation r).matrix := by
  ext i j
  fin_cases i <;> fin_cases j <;>
    simp [homogeneous, Affine3d.matrix, Affine3d.timesRotation, Matrix.mul_apply,
      Fin.sum_univ_succ, -Matrix.vecCons_const]

/-- The matrix composed by `dynamic_config_callback` and `save_config` is the
product `Translation(x,y,z) * Rz(yaw) * Ry(pitch) * Rx(roll)`. -/
theorem compose_tf_matrix_eq (c : DynamicConfig) :
    compose_tf_matrix c = translation_rz_ry_rx c.x c.y c.z c.roll c.pitch c.yaw := by
  unfold compose_tf_matrix translation_rz_ry_rx
  rw [translation4_mul_homogeneous, affine_matrix_mul_homogeneous,
    affine_matrix_mul_homogeneous]
  simp only [angleAxisMatrix_unitX, angleAxisMatrix_unitY, angleAxisMatrix_unitZ,
    translationTimesRotation]

/-- The last column of the composed matrix holds `x`. -/
theorem compose_tf_matrix_x (c : DynamicConfig) : compose_tf_matrix c 0 3 = c.x := by
  simp [compose_tf_matrix, Affine3d.timesRotation, translationTimesRotation, Affine3d.matrix,
    -Matrix.vecCons_const]

/-- The matrix that `init` builds for the identity node has no translation. -/
theorem identity_tf_x :
    calculate_tf_matrix_from_translation_and_rotation ![0, 0, 0] ![1, 0, 0, 0] 0 3 = 0 := by
  simp [calculate_tf_matrix_from_translation_and_rotation, translationTimesRotation,
    Affine3d.matrix, -Matrix.vecCons_const]

/-- A manual-tuning event changes neither the mode nor the reference topic. -/
theorem dynamic_config_callback_mode (s : Lily) (config : DynamicConfig) :
    (dynamic_config_callback s config).manual_mode_ = s.manual_mode_ ∧
      (dynamic_config_callback s config).main_topic_ = s.main_topic_ := by
  unfold dynamic_config_callback
  simp only []
  split
  · exact ⟨(save_config_fields s).2.2.2.2.2.2, (save_config_fields s).2.2.2.2.2.1⟩
  · split
    · exact ⟨rfl, rfl⟩
    · split
      · exact ⟨rfl, rfl⟩
      · split <;> exact ⟨rfl, rfl⟩

/-- The sample state after `ref` has been selected and then edited to
`x = 5`, no cloud having been received: the parameters are stored and the
transform is the one built by `init`. -/
theorem sampleState_edited :
    sampleEdit.lidar_topic = (dynamic_config_callback sampleState sampleSelect).last_topic_name_ ∧
      ((dynamic_config_callback sampleState sampleSelect).dynamic_config_map_.lookup
        "ref").isSome = true ∧
      (dynamic_config_callback sampleState sampleSelect).cloud_map_.lookup "ref" = some none ∧
      (dynamic_config_callback (dynamic_config_callback sampleState sampleSelect)
        sampleEdit).dynamic_config_map_.lookup "ref" = some sampleEdit ∧
      (dynamic_config_callback (dynamic_config_callback sampleState sampleSelect)
        sampleEdit).tf_matrix_map_.lookup "ref" =
          some (calculate_tf_matrix_from_translation_and_rotation ![0, 0, 0] ![1, 0, 0, 0]) ∧
      (dynamic_config_callback (dynamic_config_callback sampleState sampleSelect)
        sampleEdit).manual_mode_ = true := by
  obtain ⟨_, _, hl, hm, hc, htf, hsome⟩ := sampleState_eq
  obtain ⟨stored, hst⟩ := Option.isSome_iff_exists.mp hsome
  have hne : sampleSelect.lidar_topic ≠ sampleState.last_topic_name_ := by
    rw [hl]
    decide
  have e1 := dynamic_config_callback_switch sampleState sampleSelect stored (by decide) hst hne
  have hact : sampleEdit.lidar_topic =
      (dynamic_config_callback sampleState sampleSelect).last_topic_name_ := by
    rw [e1]
    rfl
  have hconf : (dynamic_config_callback sampleState sampleSelect).dynamic_config_map_.lookup
      sampleEdit.lidar_topic = some stored := by
    rw [e1]
    exact hst
  have hcloud : (dynamic_config_callback sampleState sampleSelect).cloud_map_.lookup
      sampleEdit.lidar_topic = some none := by
    rw [e1]
    exact hc
  obtain ⟨e2, _, _, e4⟩ := dynamic_config_callback_edit _ sampleEdit stored (by decide) hconf hact
  have hno : ¬ ∃ c, (dynamic_config_callback sampleState sampleSelect).cloud_map_.lookup
      sampleEdit.lidar_topic = some (some c) := by
    rintro ⟨c, hc2⟩
    rw [hcloud] at hc2
    cases hc2
  refine ⟨hact, ?_, hcloud, ?_, ?_, ?_⟩
  · rw [e1]
    exact hsome
  · rw [e2]
    exact AList.lookup_insert _
  · rw [e4 hno, e1]
    exact htf
  · rw [(dynamic_config_callback_mode _ _).1, (dynamic_config_callback_mode _ _).1]
    exact hm

/-- C6, refuted as stated: in the sample state, where no cloud has been
received for `ref`, the applied edit `x = 5` is stored as the parameters of
`ref` while the transform of `ref` is not the matrix built from them. -/
theorem C6_edit_without_cloud_counterexample :
    sampleEdit.lidar_topic = (dynamic_config_callback sampleState sampleSelect).last_topic_name_ ∧
      ((dynamic_config_callback sampleState sampleSelect).dynamic_config_map_.lookup
        "ref").isSome = true ∧
      (dynamic_config_callback (dynamic_config_callback sampleState sampleSelect)
        sampleEdit).dynamic_config_map_.lookup "ref" = some sampleEdit ∧
      (dynamic_config_callback (dynamic_config_callback sampleState sampleSelect)
        sampleEdit).tf_matrix_map_.lookup "ref" ≠
          some (translation_rz_ry_rx sampleEdit.x sampleEdit.y sampleEdit.z sampleEdit.roll
            sampleEdit.pitch sampleEdit.yaw) := by
  obtain ⟨h1, h2, _, h4, h5, _⟩ := sampleState_edited
  refine ⟨h1, h2, h4, ?_⟩
  rw [h5, ← compose_tf_matrix_eq]
  intro h
  have h03 := congrFun (congrFun (Option.some.inj h) 0) 3
  rw [identity_tf_x, compose_tf_matrix_x] at h03
  norm_num [sampleEdit] at h03

/-- C6, amended: after an edit event that `dynamic_config_callback` applies
(the topic is not the sentinel, is configured and equals the active topic) the
stored parameters of the topic are those of the event; when a cloud has been
received for the topic, its stored transform is
`Translation(x,y,z) * Rz(yaw) * Ry(pitch) * Rx(roll)` built from them; when no
cloud has been received, no transform is changed. -/
theorem C6_edit_rebuilds_transform_when_cloud_present (s : Lily)
    (config stored : DynamicConfig) (hsave : config.lidar_topic ≠ "save")
    (hconf : s.dynamic_config_map_.lookup config.lidar_topic = some stored)
    (hact : config.lidar_topic = s.last_topic_name_) :
    (dynamic_config_callback s config).dynamic_config_map_.lookup config.lidar_topic =
        some config ∧
      ((∃ c, s.cloud_map_.lookup config.lidar_topic = some (some c)) →
        (dynamic_config_callback s config).tf_matrix_map_.lookup config.lidar_topic =
          some (translation_rz_ry_rx config.x config.y config.z config.roll config.pitch
            config.yaw)) ∧
      ((¬ ∃ c, s.cloud_map_.lookup config.lidar_topic = some (some c)) →
        (dynamic_config_callback s config).tf_matrix_map_ = s.tf_matrix_map_) := by
  obtain ⟨e1, _, e3, e4⟩ := dynamic_config_callback_edit s config stored hsave hconf hact
  refine ⟨?_, ?_, e4⟩
  · rw [e1]
    exact AList.lookup_insert _
  · intro hc
    rw [e3 hc, ← compose_tf_matrix_eq]
    exact AList.lookup_insert _

/-- The sample state with a cloud for `ref`, after `ref` has been selected. -/
theorem sampleSelected_eq :
    sampleSelected.last_topic_name_ = "ref" ∧
      sampleSelected.main_topic_ = "ref" ∧
      (sampleSelected.dynamic_config_map_.lookup "ref").isSome = true ∧
      sampleSelected.cloud_map_.lookup "ref" = some (some ⟨[]⟩) ∧
      sampleSelected.tf_matrix_map_.lookup "ref" =
        some (calculate_tf_matrix_from_translation_and_rotation ![0, 0, 0] ![1, 0, 0, 0]) := by
  obtain ⟨_, hmain, hl, _, _, htf, hsome⟩ := sampleState_eq
  obtain ⟨stored, hst⟩ := Option.isSome_iff_exists.mp hsome
  have hne : sampleSelect.lidar_topic ≠ (callback sampleState ⟨[]⟩ "ref").last_topic_name_ := by
    show sampleSelect.lidar_topic ≠ sampleState.last_topic_name_
    rw [hl]
    decide
  have e1 := dynamic_config_callback_switch (callback sampleState ⟨[]⟩ "ref") sampleSelect
    stored (by decide) hst hne
  unfold sampleSelected
  rw [e1]
  refine ⟨rfl, hmain, hsome, ?_, htf⟩
  simp [callback]

/-- C6 (amended) at the sample state with a cloud for `ref`: the edit `x = 5`
is stored and the transform is rebuilt from it. -/
theorem C6_edit_rebuilds_transform_when_cloud_present_witness :
    sampleEdit.lidar_topic ≠ "save" ∧
      (sampleSelected.dynamic_config_map_.lookup sampleEdit.lidar_topic).isSome = true ∧
      sampleEdit.lidar_topic = sampleSelected.last_topic_name_ ∧
      (dynamic_config_callback sampleSelected sampleEdit).dynamic_config_map_.lookup "ref" =
        some sampleEdit ∧
      (dynamic_config_callback sampleSelected sampleEdit).tf_matrix_map_.lookup "ref" =
        some (translation_rz_ry_rx 5 0 0 0 0 0) := by
  obtain ⟨hl, _, hsome, hc, _⟩ := sampleSelected_eq
  obtain ⟨stored, hst⟩ := Option.isSome_iff_exists.mp hsome
  have hact : sampleEdit.lidar_topic = sampleSelected.last_topic_name_ := by
    rw [hl]
    rfl
  have h := C6_edit_rebuilds_transform_when_cloud_present sampleSelected sampleEdit stored
    (by decide) hst hact
  exact ⟨by decide, hsome, hact, h.1, h.2.1 ⟨_, hc⟩⟩

/-- A manual-tuning event leaves the transform of every topic other than the
one it names unchanged. -/
theorem dynamic_config_callback_tf_other (s : Lily) (config : DynamicConfig) (t : String)
    (h : config.lidar_topic ≠ t) :
    (dynamic_config_callback s config).tf_matrix_map_.lookup t = s.tf_matrix_map_.lookup t := by
  unfold dynamic_config_callback
  simp only []
  split
  · rw [(save_config_fields s).2.1]
  · split
    · rfl
    · split
      · rfl
      · split
        · exact AList.lookup_insert_ne (Ne.symm h)
        · rfl
        · rfl

/-- Events that do not tune the reference topic leave its transform
unchanged. -/
theorem run_tf_main (events : List Event) (s : Lily)
    (h : ∀ c, Event.reconfigure c ∈ events → c.lidar_topic ≠ s.main_topic_) :
    (run s events).main_topic_ = s.main_topic_ ∧
      (run s events).tf_matrix_map_.lookup s.main_topic_ =
        s.tf_matrix_map_.lookup s.main_topic_ := by
  induction events generalizing s with
  | nil => exact ⟨rfl, rfl⟩
  | cons e rest ih =>
    have hstep : (handle s e).main_topic_ = s.main_topic_ ∧
        (handle s e).tf_matrix_map_.lookup s.main_topic_ =
          s.tf_matrix_map_.lookup s.main_topic_ := by
      cases e with
      | cloud msg topic_name => exact ⟨rfl, rfl⟩
      | reconfigure config =>
        exact ⟨(dynamic_config_callback_mode s config).2,
          dynamic_config_callback_tf_other s config _ (h config (List.mem_cons_self _ _))⟩
    have hrest : ∀ c, Event.reconfigure c ∈ rest → c.lidar_topic ≠ (handle s e).main_topic_ := by
      intro c hc
      rw [hstep.1]
      exact h c (List.mem_cons_of_mem _ hc)
    obtain ⟨i1, i2⟩ := ih (handle s e) hrest
    unfold run at i1 i2 ⊢
    rw [List.foldl_cons]
    rw [hstep.1] at i1 i2
    exact ⟨i1, i2.trans hstep.2⟩

/-- C7, refuted as stated: in the sample configuration `ref` is the reference
topic; after a cloud for `ref`, the selection of `ref` and the edit `x = 5`,
the transform of `ref` is the matrix built from the edit and no longer its
value after `init`. -/
theorem C7_reference_edit_counterexample :
    init true sampleConfig = some sampleState ∧
      sampleState.main_topic_ = "ref" ∧
      (run sampleState [Event.cloud ⟨[]⟩ "ref", Event.reconfigure sampleSelect,
        Event.reconfigure sampleEdit]).tf_matrix_map_.lookup "ref" =
          some (translation_rz_ry_rx 5 0 0 0 0 0) ∧
      (run sampleState [Event.cloud ⟨[]⟩ "ref", Event.reconfigure sampleSelect,
        Event.reconfigure sampleEdit]).tf_matrix_map_.lookup "ref" ≠
          sampleState.tf_matrix_map_.lookup "ref" := by
  obtain ⟨h0, hmain, _, _, _, htf, _⟩ := sampleState_eq
  obtain ⟨hl, _, hsome, hc, _⟩ := sampleSelected_eq
  obtain ⟨stored, hst⟩ := Option.isSome_iff_exists.mp hsome
  have hrun : run sampleState [Event.cloud ⟨[]⟩ "ref", Event.reconfigure sampleSelect,
      Event.reconfigure sampleEdit] = dynamic_config_callback sampleSelected sampleEdit := rfl
  have hact : sampleEdit.lidar_topic = sampleSelected.last_topic_name_ := by
    rw [hl]
    rfl
  have e3 := (dynamic_config_callback_edit sampleSelected sampleEdit stored (by decide) hst
    hact).2.2.1 ⟨_, hc⟩
  have hnew : (dynamic_config_callback sampleSelected sampleEdit).tf_matrix_map_.lookup "ref" =
      some (compose_tf_matrix sampleEdit) := by
    rw [e3]
    exact AList.lookup_insert _
  refine ⟨h0, hmain, ?_, ?_⟩
  · rw [hrun, hnew, compose_tf_matrix_eq]
    rfl
  · rw [hrun, hnew, htf]
    intro h
    have h03 := congrFun (congrFun (Option.some.inj h) 0) 3
    rw [identity_tf_x, compose_tf_matrix_x] at h03
    norm_num [sampleEdit] at h03

/-- C7, amended: for every state and every sequence of events in which no
manual-tuning event names the reference topic, the entry of the reference
topic in `tf_matrix_map_` stays equal to its initial value (and the reference
topic stays the same); `dynamic_config_callback` has no guard for the
reference topic, whose applied edits rebuild its transform like those of any
other topic. -/
theorem C7_reference_unchanged_by_other_topics (s : Lily) (events : List Event)
    (h : ∀ c, Event.reconfigure c ∈ events → c.lidar_topic ≠ s.main_topic_) :
    (run s events).main_topic_ = s.main_topic_ ∧
      (run s events).tf_matrix_map_.lookup s.main_topic_ =
        s.tf_matrix_map_.lookup s.main_topic_ :=
  run_tf_main events s h

/-- C7 (amended) at the two-topic sample: selecting and editing `aux` leaves
the transform of the reference topic `ref` unchanged. -/
theorem C7_reference_unchanged_by_other_topics_witness :
    twoTopicState.main_topic_ = "ref" ∧
      (run twoTopicState [Event.reconfigure ⟨"aux", 0, 0, 0, 0, 0, 0⟩,
        Event.reconfigure ⟨"aux", 5, 0, 0, 0, 0, 0⟩]).tf_matrix_map_.lookup
          twoTopicState.main_topic_ =
        twoTopicState.tf_matrix_map_.lookup twoTopicState.main_topic_ := by
  have hmain : twoTopicState.main_topic_ = "ref" := by
    simp [twoTopicState, init, init_entry, twoTopicConfig, Lily.fresh, identityNode]
  refine ⟨hmain, (C7_reference_unchanged_by_other_topics twoTopicState _ ?_).2⟩
  intro c hc
  rw [hmain]
  simp only [List.mem_cons, Event.reconfigure.injEq, List.mem_singleton, List.not_mem_nil,
    or_false] at hc
  rcases hc with rfl | rfl <;> decide

/-! ### Saving -/

/-- The binary exponent of a positive real between two consecutive powers of
two. -/
theorem int_log_two_eq {r : ℝ} {e : ℤ} (h1 : (2 : ℝ) ^ e ≤ r) (h2 : r < (2 : ℝ) ^ (e + 1)) :
    Int.log 2 r = e := by
  have hr : 0 < r := lt_of_lt_of_le (by positivity) h1
  apply le_antisymm
  · have := (Int.lt_zpow_iff_log_lt (by norm_num : 1 < 2) hr).mp (by exact_mod_cast h2)
    omega
  · exact (Int.zpow_le_iff_le_log (by norm_num : 1 < 2) hr).mp (by exact_mod_cast h1)

/-- The value `0.1` is narrowed to `13421773 / 2^27 = 0.100000001490116...`. -/
theorem toFloat_one_tenth : toFloat (1 / 10) = 13421773 / 134217728 := by
  have h : Int.log 2 |(1 / 10 : ℝ)| = -4 := by
    rw [abs_of_pos (by norm_num)]
    exact int_log_two_eq (by norm_num) (by norm_num)
  unfold toFloat
  simp only [h]
  have e : (1 / 10 : ℝ) / 2 ^ ((max (-4) (-126) : ℤ) - 23) = 67108864 / 5 := by
    norm_num
  have hf : ⌊(67108864 / 5 : ℝ)⌋ = 13421772 := by
    rw [Int.floor_eq_iff]
    constructor <;> norm_num
  have hr : roundTiesToEven (67108864 / 5) = 13421773 := by
    unfold roundTiesToEven
    rw [hf]
    norm_num
  rw [e, hr]
  norm_num

/-- The value `atan2(-1, 0) = -π/2`. -/
theorem atan2_neg_one_zero : atan2 (-1) 0 = -(Real.pi / 2) := by
  have e : (⟨0, -1⟩ : ℂ) = -Complex.I := by
    apply Complex.ext <;> simp
  unfold atan2
  rw [e, Complex.arg_neg_I]

/-- The value `atan2(0, 1) = 0`. -/
theorem atan2_zero_one : atan2 0 1 = 0 := by
  have e : (⟨1, 0⟩ : ℂ) = 1 := by
    apply Complex.ext <;> simp
  unfold atan2
  rw [e, Complex.arg_one]

/-- The rotation matrix of `skewQuaternion`. -/
theorem skewQuaternion_matrix :
    (Quaterniond.mk (skewQuaternion 0) (skewQuaternion 1) (skewQuaternion 2)
      (skewQuaternion 3)).normalize.toRotationMatrix =
      !![0, -1, 0; 0, 0, -1; 1, 0, 0] := by
  rw [normalize_of_unit _ (by norm_num [Quaterniond.squaredNorm, skewQuaternion])]
  ext i j
  fin_cases i <;> fin_cases j <;>
    simp [Quaterniond.toRotationMatrix, skewQuaternion, -Matrix.vecCons_const] <;> norm_num

/-- The angles that `init` computes for `skewQuaternion`. -/
theorem skewQuaternion_euler :
    quaternion_to_euler_angles skewQuaternion = ![Real.pi / 2, 0, Real.pi / 2] := by
  unfold quaternion_to_euler_angles
  simp only [skewQuaternion_matrix]
  have hneg : ¬ (0 < -(Real.pi / 2)) := by
    have := Real.pi_pos
    linarith
  unfold eulerAngles012
  simp [-Matrix.vecCons_const, atan2_neg_one_zero, atan2_zero_one, hneg]

/-- C10, the code at a failing input: for the record `lidar` with no
translation and the rotation `[1/2, 1/2, -1/2, 1/2]`, `init` stores
`roll = π/2`, `pitch = 0`, `yaw = π/2` (the angles of `eulerAngles(0, 1, 2)`,
for which the rotation is `Rx * Ry * Rz`) and the matrix built from the
quaternion; the composition `Translation * Rz(yaw) * Ry(pitch) * Rx(roll)` of
the stored parameters is a different matrix. -/
theorem C10_init_rotation_order_mismatch :
    (init true skewConfig).map (fun s => s.dynamic_config_map_.lookup "lidar") =
        some (some ⟨"lidar", 0, 0, 0, Real.pi / 2, 0, Real.pi / 2⟩) ∧
      (init true skewConfig).map (fun s => s.tf_matrix_map_.lookup "lidar") =
        some (some (calculate_tf_matrix_from_translation_and_rotation ![0, 0, 0]
          skewQuaternion)) ∧
      translation_rz_ry_rx 0 0 0 (Real.pi / 2) 0 (Real.pi / 2) ≠
        calculate_tf_matrix_from_translation_and_rotation ![0, 0, 0] skewQuaternion := by
  refine ⟨?_, ?_, ?_⟩
  · simp [init, init_entry, skewConfig, Lily.fresh, skewQuaternion_euler, -AList.insert_empty]
  · simp [init, init_entry, skewConfig, Lily.fresh, -AList.insert_empty]
  · intro h
    have h01 := congrFun (congrFun h 0) 1
    have e : calculate_tf_matrix_from_translation_and_rotation ![0, 0, 0] skewQuaternion 0 1
        = -1 := by
      unfold calculate_tf_matrix_from_translation_and_rotation
      simp only [skewQuaternion_matrix]
      simp [Affine3d.matrix, translationTimesRotation, -Matrix.vecCons_const]
    have e2 : translation_rz_ry_rx 0 0 0 (Real.pi / 2) 0 (Real.pi / 2) 0 1 = 0 := by
      unfold translation_rz_ry_rx
      rw [translation4_mul_homogeneous, affine_matrix_mul_homogeneous,
        affine_matrix_mul_homogeneous]
      simp only [Affine3d.timesRotation, rotZYX_entries]
      simp [Affine3d.matrix, -Matrix.vecCons_const]
    rw [e, e2] at h01
    norm_num at h01

/-! ### Euler angles of a rotation matrix -/

/-- For a point `(x, y)` at distance `r > 0` from the origin, the angle
`atan2(y, x)` has cosine `x / r` and sine `y / r`. -/
theorem cos_sin_atan2 (y x r : ℝ) (hr : 0 < r) (h : x * x + y * y = r * r) :
    Real.cos (atan2 y x) = x / r ∧ Real.sin (atan2 y x) = y / r := by
  have habs : Complex.abs ⟨x, y⟩ = r := by
    rw [Complex.abs_apply, Complex.normSq_apply]
    simp only []
    rw [h, Real.sqrt_mul_self hr.le]
  have hne : (⟨x, y⟩ : ℂ) ≠ 0 := by
    intro h0
    rw [h0, map_zero] at habs
    exact hr.ne habs
  unfold atan2
  constructor
  · rw [Complex.cos_arg hne, habs]
  · rw [Complex.sin_arg, habs]

/-- The four entries of a rotation matrix outside its first column and last
row, scaled by `s² = R00² + R10²`. -/
theorem rotation_entries_scaled {m : Matrix3d} (f : RotFacts m) (s : ℝ)
    (hs : s * s = m 0 0 * m 0 0 + m 1 0 * m 1 0) :
    m 0 1 * (s * s) = -(m 0 0 * m 2 0 * m 2 1) - m 1 0 * m 2 2 ∧
      m 0 2 * (s * s) = -(m 0 0 * m 2 0 * m 2 2) + m 1 0 * m 2 1 ∧
      m 1 1 * (s * s) = -(m 1 0 * m 2 0 * m 2 1) + m 0 0 * m 2 2 ∧
      m 1 2 * (s * s) = -(m 1 0 * m 2 0 * m 2 2) - m 0 0 * m 2 1 := by
  refine ⟨?_, ?_, ?_, ?_⟩
  · linear_combination m 0 1 * hs + m 0 1 * f.col00 + f.cof01 + m 2 0 * f.cof12
  · linear_combination m 0 2 * hs + m 0 2 * f.col00 + f.cof02 - m 2 0 * f.cof11
  · linear_combination m 1 1 * hs + m 1 1 * f.col00 + f.cof11 - m 2 0 * f.cof02
  · linear_combination m 1 2 * hs + m 1 2 * f.col00 + f.cof12 + m 2 0 * f.cof01

/-- Outside the singular branch, the angles extracted from a rotation matrix
rebuild it as `Rz(yaw) * Ry(pitch) * Rx(roll)`. -/
theorem euler_round_trip_of_rotation (R : Matrix3d) (hR : IsRotation R)
    (hsy : 1e-6 ≤ euler_sy R) :
    rotZ (rotation_matrix_to_euler_angles R 2) * rotY (rotation_matrix_to_euler_angles R 1) *
      rotX (rotation_matrix_to_euler_angles R 0) = R := by
  have f := hR.facts
  have hpos : 0 < euler_sy R := lt_of_lt_of_le (by norm_num) hsy
  have hns : ¬ euler_singular R := not_lt.mpr hsy
  have hss : euler_sy R * euler_sy R = R 0 0 * R 0 0 + R 1 0 * R 1 0 := by
    unfold euler_sy
    exact Real.mul_self_sqrt (add_nonneg (mul_self_nonneg _) (mul_self_nonneg _))
  have e : rotation_matrix_to_euler_angles R =
      ![atan2 (R 2 1) (R 2 2), atan2 (-R 2 0) (euler_sy R), atan2 (R 1 0) (R 0 0)] := by
    unfold rotation_matrix_to_euler_angles
    simp only [hns, not_false_eq_true, if_true]
  obtain ⟨cx, sx⟩ := cos_sin_atan2 (R 2 1) (R 2 2) (euler_sy R) hpos
    (by linear_combination f.row22 - f.col00 - hss)
  obtain ⟨cy, sy⟩ := cos_sin_atan2 (-R 2 0) (euler_sy R) 1 one_pos
    (by linear_combination f.col00 + hss)
  obtain ⟨cz, sz⟩ := cos_sin_atan2 (R 1 0) (R 0 0) (euler_sy R) hpos
    (by linear_combination -hss)
  obtain ⟨p01, p02, p11, p12⟩ := rotation_entries_scaled f (euler_sy R) hss
  have hne : euler_sy R ≠ 0 := hpos.ne'
  rw [rotZYX_entries, e]
  generalize euler_sy R = s at *
  ext i j
  fin_cases i <;> fin_cases j <;>
    simp [cx, sx, cy, sy, cz, sz, -Matrix.vecCons_const] <;> field_simp
  · linear_combination (-(s * s)) * p01
  · linear_combination (-(s * s)) * p02
  · linear_combination (-(s * s)) * p11
  · linear_combination (-(s * s)) * p12

/-- C11: for every rotation matrix `R` (orthonormal, determinant `+1`) with
`sqrt(R00² + R10²) ≥ 1e-6`, the angles `(roll, pitch, yaw)` returned by
`rotation_matrix_to_euler_angles` satisfy `Rz(yaw) * Ry(pitch) * Rx(roll) = R`;
hence, for a rigid transform `T` whose rotation block passes that test, the
`rotation_euler` angles that `save_config` writes rebuild the rotation block
of `T` under the composition order of `save_config` and
`dynamic_config_callback`. -/
theorem C11_matrix_euler_round_trip (R : Matrix3d) (hR : IsRotation R)
    (hsy : 1e-6 ≤ Real.sqrt (R 0 0 * R 0 0 + R 1 0 * R 1 0)) :
    rotZ (rotation_matrix_to_euler_angles R 2) * rotY (rotation_matrix_to_euler_angles R 1) *
        rotX (rotation_matrix_to_euler_angles R 0) = R ∧
      ∀ T : Matrix4d, block33 T = R →
        ∃ e, (save_transform T).rotation_euler = some e ∧
          rotZ (e 2) * rotY (e 1) * rotX (e 0) = block33 T := by
  have h := euler_round_trip_of_rotation R hR hsy
  refine ⟨h, ?_⟩
  intro T hT
  refine ⟨rotation_matrix_to_euler_angles (block33 T), rfl, ?_⟩
  rw [hT]
  exact h

/-- C11 at the rotation block of the sample transform, for which
`sqrt(R00² + R10²) = 1`. -/
theorem C11_matrix_euler_round_trip_witness :
    IsRotation (block33 sampleTransform) ∧
      1e-6 ≤ Real.sqrt (block33 sampleTransform 0 0 * block33 sampleTransform 0 0 +
        block33 sampleTransform 1 0 * block33 sampleTransform 1 0) ∧
      rotZ (rotation_matrix_to_euler_angles (block33 sampleTransform) 2) *
          rotY (rotation_matrix_to_euler_angles (block33 sampleTransform) 1) *
          rotX (rotation_matrix_to_euler_angles (block33 sampleTransform) 0) =
        block33 sampleTransform := by
  have hsy : 1e-6 ≤ Real.sqrt (block33 sampleTransform 0 0 * block33 sampleTransform 0 0 +
      block33 sampleTransform 1 0 * block33 sampleTransform 1 0) := by
    have e : block33 sampleTransform 0 0 * block33 sampleTransform 0 0 +
        block33 sampleTransform 1 0 * block33 sampleTransform 1 0 = 1 := by
      simp [block33, sampleTransform, -Matrix.vecCons_const]
    rw [e, Real.sqrt_one]
    norm_num
  exact ⟨sampleTransform_rigid.rot, hsy,
    (C11_matrix_euler_round_trip (block33 sampleTransform) sampleTransform_rigid.rot hsy).1⟩


end LilyNode
